import Mathlib

/-!
Shallow embedding of the AI data-analysis engine (TypeScript) and proofs about it.

Modelling conventions:
* JS numbers are embedded as exact rationals (`ℚ`) where the source computes with
  rational operations, and as reals (`ℝ`) where `Math.sqrt` enters; IEEE-754
  rounding is idealized as exact arithmetic throughout.
* A JS data row (`Record<string, unknown>`) is an association list with (by the
  JS object invariant) pairwise-distinct keys; a missing key reads as `undefined`.
* `NaN` and non-finite numbers are represented by `Option.none` at coercion
  boundaries (`Number(v)` is `toNumber`), matching the engine's
  `!isNaN(v) && isFinite(v)` filtering.
* JS `Array.prototype.sort` (stable in all current engines) is modelled by
  `List.mergeSort`; `Map` iteration order (insertion order) is modelled by
  insertion-ordered association lists.
* String-producing code (narratives, summaries) is embedded faithfully in
  structure; host-locale/float-printing details (`toLocaleString`, shortest
  round-trip float rendering) are idealized where noted.
-/

open scoped Classical

namespace Engine

/-- Cell value of a data row: the `unknown`-typed scalars the engine receives.
`num` is a finite JS number, `nan` a NaN/non-finite number cell, `undefVal` the
value read from a missing key (JS `undefined`). -/
inductive JsValue where
  | num (x : ℚ)
  | nan
  | str (s : String)
  | bool (b : Bool)
  | null
  | undefVal
  deriving DecidableEq

/-- `DataRow = Record<string, unknown>`: association list with distinct keys. -/
abbrev DataRow := List (String × JsValue)

/-- Property read `row[column]`; a missing key yields `undefined`. -/
def rowGet (row : DataRow) (column : String) : JsValue :=
  match row.find? (fun p => p.1 == column) with
  | some p => p.2
  | none => .undefVal

/-- `Object.keys(row)`. JS objects cannot hold duplicate keys; `eraseDups`
canonicalizes the association-list model accordingly. -/
def objKeys (row : DataRow) : List String :=
  (row.map Prod.fst).eraseDups

/-! ### Character/string helpers (JS semantics, over `List Char`) -/

/-- JS whitespace as used by `Number(string)` trimming (ASCII subset). -/
def isJsSpace (c : Char) : Bool :=
  c == ' ' || c == '\t' || c == '\n' || c == '\r' || c.val == 11 || c.val == 12

/-- Trim leading and trailing whitespace of a character list. -/
def jsTrim (l : List Char) : List Char :=
  ((l.dropWhile isJsSpace).reverse.dropWhile isJsSpace).reverse

/-- Word character of the regex class `\w`: `[A-Za-z0-9_]`. -/
def isWordChar (c : Char) : Bool :=
  c.isAlphanum || c == '_'

/-- Whether `pat` occurs as a contiguous run inside `hay`
(JS `String.prototype.includes`). -/
def containsSub (hay pat : List Char) : Bool :=
  match hay with
  | [] => pat.isEmpty
  | _ :: rest => pat.isPrefixOf hay || containsSub rest pat

/-- `s.includes(t)` on strings. -/
def jsIncludes (s t : String) : Bool :=
  containsSub s.data t.data

/-- Lower-case a character list (`String.prototype.toLowerCase`, ASCII). -/
def lowerL (l : List Char) : List Char :=
  l.map Char.toLower

/-- `s.toLowerCase()`. -/
def jsToLower (s : String) : String :=
  String.mk (lowerL s.data)

/-! ### JS number coercion (`Number(v)`) -/

/-- Numeric value of a digit list (most significant first). -/
def digitsVal (l : List Char) : ℕ :=
  l.foldl (fun acc c => acc * 10 + (c.toNat - 48)) 0

/-- Parse an unsigned decimal literal (`digits`, `digits.digits`, `.digits`,
`digits.`), consuming the whole input. -/
def parseDecimal (l : List Char) : Option ℚ :=
  let ip := l.takeWhile Char.isDigit
  let rest := l.dropWhile Char.isDigit
  match rest with
  | [] => if ip.isEmpty then none else some (digitsVal ip : ℚ)
  | '.' :: rest2 =>
    let fp := rest2.takeWhile Char.isDigit
    let rest3 := rest2.dropWhile Char.isDigit
    if rest3.isEmpty && !(ip.isEmpty && fp.isEmpty) then
      some ((digitsVal ip : ℚ) + (digitsVal fp : ℚ) / 10 ^ fp.length)
    else none
  | _ => none

/-- JS `Number(string)`: whitespace-trimmed; empty string coerces to `0`;
a signed decimal literal to its value; anything else to NaN (`none`).
Exponent/hex/`Infinity` forms are not modelled: they are mapped to `none`,
which coincides with the engine's behaviour after its `isFinite` filter for
`Infinity` and elides only exotic exponent-literal cells. -/
def strToNumber (s : String) : Option ℚ :=
  let t := jsTrim s.data
  if t.isEmpty then some 0
  else
    match t with
    | '-' :: rest => (parseDecimal rest).map (fun q => -q)
    | '+' :: rest => parseDecimal rest
    | l => parseDecimal l

/-- JS `Number(v)` on a cell. Note `Number(null) = 0`, `Number('') = 0`,
`Number(true/false) = 1/0`, while `Number(undefined)` is NaN. -/
def toNumber : JsValue → Option ℚ
  | .num x => some x
  | .nan => none
  | .str s => strToNumber s
  | .bool b => some (if b then 1 else 0)
  | .null => some 0
  | .undefVal => none

/-- utils.ts `extractNumericValues`:
`rows.map(row => Number(row[column])).filter(v => !isNaN(v) && isFinite(v))`. -/
def extractNumericValues (rows : List DataRow) (column : String) : List ℚ :=
  (rows.map (fun row => toNumber (rowGet row column))).filterMap id

/-! ### Statistical primitives (utils.ts) -/

/-- utils.ts `mean`. -/
def mean (values : List ℚ) : ℚ :=
  if values.length = 0 then 0 else values.sum / values.length

/-- `[...values].sort((a, b) => a - b)`: stable numeric ascending sort. -/
def sortNum (values : List ℚ) : List ℚ :=
  values.mergeSort (fun a b => decide (a ≤ b))

/-- utils.ts `median`. -/
def median (values : List ℚ) : ℚ :=
  if values.length = 0 then 0 else
  let sorted := sortNum values
  let mid := sorted.length / 2
  if sorted.length % 2 ≠ 0 then sorted.getD mid 0
  else (sorted.getD (mid - 1) 0 + sorted.getD mid 0) / 2

/-- Insertion-ordered `Map` of value counts (JS `Map` preserves insertion
order; `set` on an existing key updates in place). -/
def countsInOrder {α : Type} [DecidableEq α] (values : List α) : List (α × ℕ) :=
  values.foldl (fun acc v =>
    if acc.any (fun p => decide (p.1 = v)) then
      acc.map (fun p => if p.1 = v then (p.1, p.2 + 1) else p)
    else acc ++ [(v, 1)]) []

/-- utils.ts `mode`: first (in insertion order) value of strictly maximal
count; `undefined` (`none`) on empty input. -/
def mode {α : Type} [DecidableEq α] (values : List α) : Option α :=
  ((countsInOrder values).foldl (fun best p =>
    match best with
    | none => some p
    | some q => if q.2 < p.2 then some p else some q) none).map Prod.fst

/-- utils.ts `standardDeviation`: population standard deviation, `0` for
fewer than 2 values. -/
noncomputable def standardDeviation (values : List ℚ) : ℝ :=
  if values.length < 2 then 0 else
  let avg := mean values
  Real.sqrt ((mean (values.map (fun v => (v - avg) ^ 2)) : ℚ) : ℝ)

/-- utils.ts `percentile`: linear interpolation between bracketing order
statistics of the sorted array. -/
def percentile (values : List ℚ) (p : ℚ) : ℚ :=
  if values.length = 0 then 0 else
  let sorted := sortNum values
  let index : ℚ := p / 100 * ((sorted.length : ℚ) - 1)
  let lower : ℤ := ⌊index⌋
  let upper : ℤ := ⌈index⌉
  if lower = upper then sorted.getD lower.toNat 0
  else sorted.getD lower.toNat 0 * ((upper : ℚ) - index)
       + sorted.getD upper.toNat 0 * (index - (lower : ℚ))

/-- Quartile triple of utils.ts `quartiles`. -/
structure Quartiles where
  q1 : ℚ
  q2 : ℚ
  q3 : ℚ

/-- utils.ts `quartiles`. -/
def quartiles (values : List ℚ) : Quartiles :=
  ⟨percentile values 25, percentile values 50, percentile values 75⟩

/-- utils.ts `zScore` (guarded against zero standard deviation). -/
noncomputable def zScore (value meanV : ℚ) (stdDev : ℝ) : ℝ :=
  if stdDev = 0 then 0 else ((value : ℝ) - (meanV : ℝ)) / stdDev

/-- Result record of utils.ts `linearRegression`. -/
structure LinReg where
  slope : ℚ
  intercept : ℚ
  r2 : ℚ

/-- utils.ts `linearRegression`: OLS of value against index `0..n-1`. -/
def linearRegression (values : List ℚ) : LinReg :=
  let n := values.length
  if n < 2 then ⟨0, values.getD 0 0, 0⟩ else
  let xMean : ℚ := ((n : ℚ) - 1) / 2
  let yMean := mean values
  let numerator := (values.enum.map (fun p => ((p.1 : ℚ) - xMean) * (p.2 - yMean))).sum
  let denominator := (values.enum.map (fun p => ((p.1 : ℚ) - xMean) ^ 2)).sum
  let ssTotal := (values.map (fun y => (y - yMean) ^ 2)).sum
  let slope := if denominator ≠ 0 then numerator / denominator else 0
  let intercept := yMean - slope * xMean
  let ssResidual := (values.enum.map (fun p => (p.2 - (slope * (p.1 : ℚ) + intercept)) ^ 2)).sum
  let r2 := if ssTotal ≠ 0 then 1 - ssResidual / ssTotal else 0
  ⟨slope, intercept, r2⟩

/-- utils.ts `movingAverage`; input returned unchanged when shorter than the
window. -/
def movingAverage (values : List ℚ) (window : ℕ) : List ℚ :=
  if values.length < window then values else
  (List.range (values.length - window + 1)).map (fun i => mean ((values.drop i).take window))

/-- Tail recursion of `exponentialSmoothing`: each output is
`alpha * value + (1 - alpha) * previous`. -/
def expSmoothAux (alpha : ℚ) (prev : ℚ) : List ℚ → List ℚ
  | [] => []
  | v :: rest =>
    let cur := alpha * v + (1 - alpha) * prev
    cur :: expSmoothAux alpha cur rest

/-- utils.ts `exponentialSmoothing` (EWMA seeded with the first value). -/
def exponentialSmoothing (values : List ℚ) (alpha : ℚ := 3/10) : List ℚ :=
  match values with
  | [] => []
  | v :: rest => v :: expSmoothAux alpha v rest

/-- utils.ts `pearsonCorrelation` over the first `min(|x|,|y|)` pairs. -/
noncomputable def pearsonCorrelation (x y : List ℚ) : ℝ :=
  let n := min x.length y.length
  if n < 2 then 0 else
  let xs := x.take n
  let ys := y.take n
  let xMean := mean xs
  let yMean := mean ys
  let numerator := ((xs.zip ys).map (fun p => (p.1 - xMean) * (p.2 - yMean))).sum
  let xDenom := (xs.map (fun v => (v - xMean) ^ 2)).sum
  let yDenom := (ys.map (fun v => (v - yMean) ^ 2)).sum
  let denominator := Real.sqrt ((xDenom * yDenom : ℚ) : ℝ)
  if denominator ≠ 0 then ((numerator : ℚ) : ℝ) / denominator else 0

/-- utils.ts `cramersV`: chi-squared association of two label sequences,
categories in first-occurrence order, contingency cell `(a, b)` counting the
paired positions valued `(a, b)` (the source's `indexOf`-increment loop). -/
noncomputable def cramersV (x y : List String) : ℝ :=
  let n := min x.length y.length
  if n < 2 then 0 else
  let xCategories := x.eraseDups
  let yCategories := y.eraseDups
  let pairs := (x.take n).zip (y.take n)
  let contingency := xCategories.map (fun a => yCategories.map (fun b =>
    ((pairs.filter (fun p => p.1 == a && p.2 == b)).length : ℚ)))
  let rowSums := contingency.map List.sum
  let colSums := (List.range yCategories.length).map (fun j =>
    (contingency.map (fun row => row.getD j 0)).sum)
  let chiSquared := (contingency.enum.map (fun ri =>
    (ri.2.enum.map (fun cj =>
      let expected := rowSums.getD ri.1 0 * colSums.getD cj.1 0 / (n : ℚ)
      if expected > 0 then (cj.2 - expected) ^ 2 / expected else 0)).sum)).sum
  let k := min xCategories.length yCategories.length
  if k > 1 then Real.sqrt ((chiSquared / ((n : ℚ) * ((k : ℚ) - 1)) : ℚ) : ℝ) else 0

/-! ### Number formatting helpers -/

/-- Round half away from zero (idealization of JS decimal rounding in
`toFixed`). -/
def roundHalfAway (q : ℚ) : ℤ :=
  if q ≥ 0 then ⌊q + 1/2⌋ else -⌊-q + 1/2⌋

/-- Left-pad a string with `'0'` to length `d`. -/
def padLeftZeros (s : String) (d : ℕ) : String :=
  String.mk (List.replicate (d - s.length) '0') ++ s

/-- Render `n / 10^d` with exactly `d` decimals. -/
def renderFixedInt (n : ℤ) (d : ℕ) : String :=
  let sign := if n < 0 then "-" else ""
  let a := n.natAbs
  if d = 0 then sign ++ toString a
  else sign ++ toString (a / 10 ^ d) ++ "." ++ padLeftZeros (toString (a % 10 ^ d)) d

/-- JS `Number.prototype.toFixed` on an exact rational. -/
def toFixed (q : ℚ) (d : ℕ) : String :=
  renderFixedInt (roundHalfAway (q * 10 ^ d)) d

/-- JS `Number.prototype.toFixed` on a real value (confidence bounds contain
square roots). -/
noncomputable def toFixedR (x : ℝ) (d : ℕ) : String :=
  renderFixedInt (if x ≥ 0 then ⌊x * 10 ^ d + 1/2⌋ else -⌊-x * 10 ^ d + 1/2⌋) d

/-- Strip trailing `'0'` characters. -/
def stripTrailingZeros (s : String) : String :=
  String.mk ((s.data.reverse.dropWhile (· == '0')).reverse)

/-- How many times `p` divides `n` (fuelled; call with `fuel = n`). -/
def countFactor (p : ℕ) : ℕ → ℕ → ℕ
  | 0, _ => 0
  | fuel + 1, n => if n ≠ 0 ∧ 1 < p ∧ n % p = 0 then countFactor p fuel (n / p) + 1 else 0

/-- JS number-to-string conversion, exact for numbers with a finite decimal
expansion (the only numeric cell values produced by `Number` coercion of
decimal text); other rationals fall back to 17-digit fixed rendering, an
idealization of shortest-round-trip double printing. -/
def jsNumToString (q : ℚ) : String :=
  let d := q.den
  let k := max (countFactor 2 d d) (countFactor 5 d d)
  if (q * 10 ^ k).den = 1 then
    let m : ℤ := (q * 10 ^ k).num
    let sign := if m < 0 then "-" else ""
    let a := m.natAbs
    if k = 0 then sign ++ toString a
    else
      let fs := stripTrailingZeros (padLeftZeros (toString (a % 10 ^ k)) k)
      if fs = "" then sign ++ toString (a / 10 ^ k)
      else sign ++ toString (a / 10 ^ k) ++ "." ++ fs
  else toFixed q 17

/-- JS `String(v)` on a cell value. -/
def jsToString : JsValue → String
  | .num x => jsNumToString x
  | .nan => "NaN"
  | .str s => s
  | .bool b => if b then "true" else "false"
  | .null => "null"
  | .undefVal => "undefined"

/-- utils.ts `formatNumber`: human formatting with B/M/K suffixes. -/
def formatNumber (value : ℚ) (decimals : ℕ := 2) : String :=
  if |value| ≥ 1000000000 then toFixed (value / 1000000000) decimals ++ "B"
  else if |value| ≥ 1000000 then toFixed (value / 1000000) decimals ++ "M"
  else if |value| ≥ 1000 then toFixed (value / 1000) decimals ++ "K"
  else toFixed value decimals

/-- Thousands grouping of digit characters given in reverse order. -/
def groupAux : ℕ → List Char → List Char
  | _, [] => []
  | i, c :: rest =>
    if i % 3 = 0 ∧ i ≠ 0 then c :: ',' :: groupAux (i + 1) rest
    else c :: groupAux (i + 1) rest

/-- `Number.prototype.toLocaleString` for a natural number ("en-US"-style
thousands grouping; locale variation idealized). -/
def toLocaleStringNat (n : ℕ) : String :=
  String.mk ((groupAux 0 (toString n).data.reverse).reverse)

/-- `Number.prototype.toLocaleString` for a rational: grouped integer part
and at most 3 fraction digits (the ECMA-402 default), locale idealized. -/
def toLocaleStringQ (q : ℚ) : String :=
  let r : ℤ := roundHalfAway (q * 1000)
  let sign := if r < 0 then "-" else ""
  let a := r.natAbs
  let fs := stripTrailingZeros (padLeftZeros (toString (a % 1000)) 3)
  sign ++ toLocaleStringNat (a / 1000) ++ (if fs = "" then "" else "." ++ fs)

/-- utils.ts `topFrequentValues`: counts in insertion order, stably sorted by
descending count, truncated to `n`. -/
def topFrequentValues {α : Type} [DecidableEq α] (values : List α) (n : ℕ) :
    List (α × ℕ) :=
  ((countsInOrder values).mergeSort (fun a b => decide (b.2 ≤ a.2))).take n

/-- JSON rendering of one cell for `JSON.stringify`; `none` for `undefined`
(the property is omitted), `NaN` serializes as `null`. String escaping of
special characters is elided (cells in scope are plain text). -/
def jsonEncodeValue : JsValue → Option String
  | .num x => some (jsNumToString x)
  | .nan => some "null"
  | .str s => some ("\"" ++ s ++ "\"")
  | .bool b => some (if b then "true" else "false")
  | .null => some "null"
  | .undefVal => none

/-- `JSON.stringify` of one row object. -/
def jsonEncodeRow (row : DataRow) : String :=
  "\x7b" ++ String.intercalate ","
    (row.filterMap (fun p => (jsonEncodeValue p.2).map (fun v => "\"" ++ p.1 ++ "\":" ++ v)))
    ++ "\x7d"

/-- utils.ts `estimateMemorySize`: UTF-8 byte size of the JSON serialization,
rendered with GB/MB/KB/bytes units. -/
def estimateMemorySize (rows : List DataRow) : String :=
  let jsonStr := "[" ++ String.intercalate "," (rows.map jsonEncodeRow) ++ "]"
  let bytes := jsonStr.utf8ByteSize
  if bytes ≥ 1000000000 then toFixed ((bytes : ℚ) / 1000000000) 2 ++ " GB"
  else if bytes ≥ 1000000 then toFixed ((bytes : ℚ) / 1000000) 2 ++ " MB"
  else if bytes ≥ 1000 then toFixed ((bytes : ℚ) / 1000) 2 ++ " KB"
  else toString bytes ++ " bytes"

/-! ### Type inference (utils.ts `detectColumnType`) -/

/-- Column semantic types. -/
inductive ColumnType where
  | numeric
  | categorical
  | datetime
  | boolean
  | text
  deriving DecidableEq

/-- Negation of the empty-cell test `v !== null && v !== undefined && v !== ''`. -/
def isPresentCell (v : JsValue) : Bool :=
  !(v == .null || v == .undefVal || v == .str "")

/-- Consume exactly `n` digits. -/
def takeDigits (n : ℕ) (l : List Char) : Option (List Char) :=
  if (l.take n).length = n ∧ (l.take n).all Char.isDigit then some (l.drop n) else none

/-- Consume one expected character. -/
def expectChar (c : Char) : List Char → Option (List Char)
  | x :: rest => if x = c then some rest else none
  | [] => none

/-- Prefix match of `^\d{4}-\d{2}-\d{2}` (ISO date). -/
def dateIsoPat (l : List Char) : Bool :=
  ((((takeDigits 4 l).bind (expectChar '-')).bind (takeDigits 2)).bind
    (expectChar '-') |>.bind (takeDigits 2)).isSome

/-- Prefix match of `^\d{2}\/\d{2}\/\d{4}` (US date). -/
def dateUsPat (l : List Char) : Bool :=
  ((((takeDigits 2 l).bind (expectChar '/')).bind (takeDigits 2)).bind
    (expectChar '/') |>.bind (takeDigits 4)).isSome

/-- Prefix match of `^\d{2}-\d{2}-\d{4}` (EU date). -/
def dateEuPat (l : List Char) : Bool :=
  ((((takeDigits 2 l).bind (expectChar '-')).bind (takeDigits 2)).bind
    (expectChar '-') |>.bind (takeDigits 4)).isSome

/-- Whether any of the three date regexes of `detectColumnType` matches. -/
def matchesAnyDatePattern (s : String) : Bool :=
  dateIsoPat s.data || dateUsPat s.data || dateEuPat s.data

/-- Day number of a civil date (days since 1970-01-01, Gregorian). -/
def daysFromCivil (y : ℤ) (m d : ℤ) : ℤ :=
  let yAdj := y - (if m ≤ 2 then 1 else 0)
  let era := (if yAdj ≥ 0 then yAdj else yAdj - 399) / 400
  let yoe := yAdj - era * 400
  let doy := (153 * (m + (if m > 2 then -3 else 9)) + 2) / 5 + d - 1
  let doe := yoe * 365 + yoe / 4 - yoe / 100 + doy
  era * 146097 + doe - 719468

/-- JS `Date.parse` / `new Date(string)`, modelled for ISO `YYYY-MM-DD` input
only (result in milliseconds since the epoch); host-defined parsing of other
formats — and time-of-day suffixes — is elided and reported as invalid
(`none`). Month/day range checks follow the ISO parser (days capped at 31,
month-length precision elided). -/
def jsDateParse (s : String) : Option ℤ :=
  let l := s.data
  match l.take 10, l.drop 10 with
  | [y1, y2, y3, y4, '-', m1, m2, '-', d1, d2], [] =>
    if [y1, y2, y3, y4, m1, m2, d1, d2].all Char.isDigit then
      let y := (digitsVal [y1, y2, y3, y4] : ℤ)
      let m := (digitsVal [m1, m2] : ℤ)
      let d := (digitsVal [d1, d2] : ℤ)
      if 1 ≤ m ∧ m ≤ 12 ∧ 1 ≤ d ∧ d ≤ 31 then
        some (daysFromCivil y m d * 86400000)
      else none
    else none
  | _, _ => none

/-- utils.ts `detectColumnType`: priority-ordered boolean → numeric →
datetime → categorical → text classification over a 100-value sample.
The numeric test `!isNaN(Number(v))` is modelled by `(toNumber v).isSome`,
which conflates `Infinity`-valued cells with NaN (see `strToNumber`). -/
def detectColumnType (values : List JsValue) : ColumnType :=
  let nonNullValues := values.filter isPresentCell
  if nonNullValues.length = 0 then .text else
  let sample := nonNullValues.take (min 100 nonNullValues.length)
  let booleanValues : List String := ["true", "false", "1", "0", "yes", "no"]
  if sample.all (fun v => booleanValues.contains (jsToLower (jsToString v))) then .boolean
  else if ((((sample.filter (fun v => (toNumber v).isSome && v != .str "")).length : ℚ)
      / (sample.length : ℚ)) ≥ 9/10) then .numeric
  else if ((((sample.filter (fun v =>
      let s := jsToString v
      matchesAnyDatePattern s || (jsDateParse s).isSome)).length : ℚ)
      / (sample.length : ℚ)) ≥ 8/10) then .datetime
  else if ((((sample.map jsToString).eraseDups.length : ℚ) / (sample.length : ℚ) < 1/2)
      ∨ nonNullValues.eraseDups.length ≤ 20) then .categorical
  else .text

/-! ### Profiler (profiler.ts) -/

/-- Values of the type-conditional `min`/`max` profile fields
(`number | string | Date` in the source; only numbers and dates are ever
stored). -/
inductive ProfVal where
  | num (x : ℚ)
  | date (t : ℤ)
  deriving DecidableEq

/-- Key values of `topValues`/`mode` (`string | number`); a NaN number key is
`num none` (JS `Map` SameValueZero makes NaN a single key). -/
inductive KeyVal where
  | num (x : Option ℚ)
  | str (s : String)
  deriving DecidableEq

/-- `ColumnProfile` of types.ts. -/
structure ColumnProfile where
  name : String
  type : ColumnType
  nullCount : ℕ
  totalCount : ℕ
  uniqueCount : ℕ
  min : Option ProfVal := none
  max : Option ProfVal := none
  mean : Option ℚ := none
  median : Option ℚ := none
  mode : Option KeyVal := none
  stdDev : Option ℝ := none
  topValues : List (KeyVal × ℕ)

/-- `Math.min(...values)` over a nonempty list (callers guard emptiness). -/
def listMin (l : List ℚ) : ℚ :=
  match l with
  | [] => 0
  | x :: rest => rest.foldl min x

/-- `Math.max(...values)` over a nonempty list (callers guard emptiness). -/
def listMax (l : List ℚ) : ℚ :=
  match l with
  | [] => 0
  | x :: rest => rest.foldl max x

/-- profiler.ts `profileColumn`. -/
noncomputable def profileColumn (rows : List DataRow) (columnName : String) :
    ColumnProfile :=
  let values := rows.map (fun row => rowGet row columnName)
  let nonNullValues := values.filter isPresentCell
  let type := detectColumnType values
  let base : ColumnProfile := {
    name := columnName
    type := type
    nullCount := values.length - nonNullValues.length
    totalCount := values.length
    uniqueCount := ((nonNullValues.map jsToString).eraseDups).length
    topValues := topFrequentValues (nonNullValues.map (fun v =>
      if type = .numeric then KeyVal.num (toNumber v) else KeyVal.str (jsToString v))) 5 }
  if type = .numeric then
    let numericValues := extractNumericValues rows columnName
    if numericValues.length > 0 then
      { base with
        min := some (.num (listMin numericValues))
        max := some (.num (listMax numericValues))
        mean := some (mean numericValues)
        median := some (median numericValues)
        mode := (mode numericValues).map (fun q => KeyVal.num (some q))
        stdDev := some (standardDeviation numericValues) }
    else base
  else if type = .datetime then
    let dates := (nonNullValues.filterMap (fun v => jsDateParse (jsToString v))).mergeSort
      (fun a b => decide (a ≤ b))
    if dates.length > 0 then
      { base with
        min := some (.date (dates.getD 0 0))
        max := some (.date (dates.getD (dates.length - 1) 0)) }
    else base
  else if type = .categorical ∨ type = .text then
    { base with mode := (mode (nonNullValues.map jsToString)).map KeyVal.str }
  else base

/-- `DatasetProfile` of types.ts. -/
structure DatasetProfile where
  rowCount : ℕ
  columnCount : ℕ
  columns : List ColumnProfile
  memoryEstimate : String
  completeness : ℚ

/-- profiler.ts `profileDataset`. `Math.round(x)` is `⌊x + 1/2⌋`. -/
noncomputable def profileDataset (rows : List DataRow) : DatasetProfile :=
  if rows.length = 0 then
    { rowCount := 0, columnCount := 0, columns := [], memoryEstimate := "0 bytes"
      completeness := 0 }
  else
  let columnNames := objKeys (rows.getD 0 [])
  let columns := columnNames.map (fun name => profileColumn rows name)
  let totalCells := rows.length * columnNames.length
  let nullCells := (columns.map (fun col => col.nullCount)).sum
  let completeness : ℚ :=
    if totalCells > 0 then (((totalCells : ℚ) - (nullCells : ℚ)) / (totalCells : ℚ)) * 100
    else 0
  { rowCount := rows.length
    columnCount := columnNames.length
    columns := columns
    memoryEstimate := estimateMemorySize rows
    completeness := (⌊completeness * 100 + 1/2⌋ : ℚ) / 100 }

/-- Template rendering of `col.min?.toLocaleString()` in the profile summary
(only numeric columns reach it; the date branch is unreachable there). -/
def renderProfValLocale : Option ProfVal → String
  | some (.num q) => toLocaleStringQ q
  | some (.date t) => toString t
  | none => "undefined"

/-- Template rendering of `col.mean?.toFixed(2)`. -/
def renderMeanFixed : Option ℚ → String
  | some m => toFixed m 2
  | none => "undefined"

/-- profiler.ts `generateProfileSummary`. -/
def generateProfileSummary (profile : DatasetProfile) : String :=
  let numericCols := profile.columns.filter (fun c => c.type == .numeric)
  let categoricalCols := profile.columns.filter (fun c => c.type == .categorical)
  let datetimeCols := profile.columns.filter (fun c => c.type == .datetime)
  let lines : List String := [
    "Dataset Overview:",
    "• " ++ toLocaleStringNat profile.rowCount ++ " rows × "
      ++ toString profile.columnCount ++ " columns",
    "• Data completeness: " ++ jsNumToString profile.completeness ++ "%",
    "• Estimated size: " ++ profile.memoryEstimate,
    "",
    "Column Types:",
    "• Numeric: " ++ toString numericCols.length ++ " columns",
    "• Categorical: " ++ toString categoricalCols.length ++ " columns",
    "• DateTime: " ++ toString datetimeCols.length ++ " columns"]
  let lines := lines ++ (if numericCols.length > 0 then
    ["", "Key Numeric Columns:"] ++ (numericCols.take 5).map (fun col =>
      "• " ++ col.name ++ ": range [" ++ renderProfValLocale col.min ++ " - "
        ++ renderProfValLocale col.max ++ "], mean " ++ renderMeanFixed col.mean)
    else [])
  let lines := lines ++ (if categoricalCols.length > 0 then
    ["", "Key Categorical Columns:"] ++ (categoricalCols.take 5).map (fun col =>
      "• " ++ col.name ++ ": " ++ toString col.uniqueCount ++ " unique values")
    else [])
  String.intercalate "\n" lines

/-- profiler.ts `getColumnsByType`. -/
def getColumnsByType (profile : DatasetProfile) (type : ColumnType) :
    List ColumnProfile :=
  profile.columns.filter (fun c => c.type == type)

/-- profiler.ts `findHighNullColumns` (division by a zero `totalCount` gives
JS `NaN > threshold = false`; rational `0 > threshold` likewise). -/
def findHighNullColumns (profile : DatasetProfile) (threshold : ℚ := 1/10) :
    List ColumnProfile :=
  profile.columns.filter (fun c =>
    decide ((c.nullCount : ℚ) / (c.totalCount : ℚ) > threshold))

/-- profiler.ts `findPotentialIdColumns`. -/
def findPotentialIdColumns (profile : DatasetProfile) : List ColumnProfile :=
  profile.columns.filter (fun c =>
    decide ((c.uniqueCount : ℚ) / (c.totalCount : ℚ) > 95/100 ∧ c.totalCount > 10))

/-! ### Anomaly detection (anomalies.ts) -/

/-- Method that flagged an anomaly. -/
inductive AnomalyType where
  | zscore
  | iqr
  | spike
  | drop
  deriving DecidableEq

/-- Expected-range bounds of an anomaly. -/
structure RangeR where
  min : ℝ
  max : ℝ

/-- `Anomaly` of types.ts. -/
structure Anomaly where
  rowIndex : ℕ
  column : String
  value : ℚ
  expectedRange : RangeR
  score : ℝ
  type : AnomalyType

/-- anomalies.ts `detectZScoreAnomalies`. -/
noncomputable def detectZScoreAnomalies (values : List ℚ) (columnName : String)
    (threshold : ℚ := 3) : List Anomaly :=
  if values.length < 10 then [] else
  let avg := mean values
  let std := standardDeviation values
  if std = 0 then [] else
  values.enum.filterMap (fun p =>
    let z := zScore p.2 avg std
    if |z| > (threshold : ℝ) then
      some { rowIndex := p.1, column := columnName, value := p.2
             expectedRange := ⟨(avg : ℝ) - 2 * std, (avg : ℝ) + 2 * std⟩
             score := min (|z| / 5) 1, type := .zscore }
    else none)

/-- anomalies.ts `detectIQRAnomalies` (`iqr || 1` floors a zero IQR at 1 in
the score denominator). -/
noncomputable def detectIQRAnomalies (values : List ℚ) (columnName : String)
    (multiplier : ℚ := 3/2) : List Anomaly :=
  if values.length < 10 then [] else
  let q := quartiles values
  let iqr := q.q3 - q.q1
  let lowerBound := q.q1 - multiplier * iqr
  let upperBound := q.q3 + multiplier * iqr
  values.enum.filterMap (fun p =>
    if p.2 < lowerBound ∨ p.2 > upperBound then
      let distance := if p.2 < lowerBound then lowerBound - p.2 else p.2 - upperBound
      let score : ℚ := min (distance / (if iqr = 0 then 1 else iqr)) 1
      some { rowIndex := p.1, column := columnName, value := p.2
             expectedRange := ⟨(lowerBound : ℝ), (upperBound : ℝ)⟩
             score := (score : ℝ), type := .iqr }
    else none)

/-- anomalies.ts `detectRollingAnomalies`: each index from `windowSize` on is
compared against the mean/stddev of the preceding window. -/
noncomputable def detectRollingAnomalies (values : List ℚ) (columnName : String)
    (windowSize : ℕ := 5) (threshold : ℚ := 2) : List Anomaly :=
  if values.length < windowSize + 2 then [] else
  ((List.range values.length).drop windowSize).filterMap (fun i =>
    let window := (values.drop (i - windowSize)).take windowSize
    let windowMean := mean window
    let windowStd := standardDeviation window
    if windowStd = 0 then none else
    let currentValue := values.getD i 0
    let deviation := |(currentValue : ℝ) - (windowMean : ℝ)| / windowStd
    if deviation > (threshold : ℝ) then
      let isSpike := currentValue > windowMean
      some { rowIndex := i, column := columnName, value := currentValue
             expectedRange := ⟨(windowMean : ℝ) - (threshold : ℝ) * windowStd,
                               (windowMean : ℝ) + (threshold : ℝ) * windowStd⟩
             score := min (deviation / 5) 1
             type := if isSpike then .spike else .drop }
    else none)

/-- Merge step of `detectColumnAnomalies`: a JS `Map` keyed by `rowIndex`
(insertion-ordered, in-place update) keeping the higher-scored anomaly. -/
noncomputable def dedupByRowIndex (l : List Anomaly) : List Anomaly :=
  (l.foldl (fun (acc : List (ℕ × Anomaly)) a =>
    match acc.find? (fun p => p.1 == a.rowIndex) with
    | some p =>
      if p.2.score < a.score then
        acc.map (fun q => if q.1 == a.rowIndex then (q.1, a) else q)
      else acc
    | none => acc ++ [(a.rowIndex, a)]) []).map Prod.snd

/-- anomalies.ts `detectColumnAnomalies`: the three detectors merged by
row index (max score) and sorted by descending score. -/
noncomputable def detectColumnAnomalies (rows : List DataRow) (columnName : String) :
    List Anomaly :=
  let values := extractNumericValues rows columnName
  if values.length < 10 then [] else
  let zScoreAnomalies := detectZScoreAnomalies values columnName
  let iqrAnomalies := detectIQRAnomalies values columnName
  let rollingAnomalies := detectRollingAnomalies values columnName
  let allAnomalies := zScoreAnomalies ++ iqrAnomalies ++ rollingAnomalies
  (dedupByRowIndex allAnomalies).mergeSort (fun a b => decide (b.score ≤ a.score))

/-- `AnomalyResult` of types.ts. -/
structure AnomalyResult where
  anomalies : List Anomaly
  anomalyScore : ℝ
  affectedColumns : List String
  explanation : String

/-- anomalies.ts `generateAnomalyExplanation`. -/
noncomputable def generateAnomalyExplanation (anomalies : List Anomaly)
    (affectedColumns : List String) (totalRows : ℕ) : String :=
  if anomalies.length = 0 then
    "No significant anomalies detected in the dataset. Data values fall within expected ranges across all analyzed columns."
  else
  let pct := toFixed (((anomalies.length : ℚ) / (totalRows : ℚ)) * 100) 2
  let parts : List String := [
    "Detected " ++ toString anomalies.length ++ " anomalous data point(s) affecting "
      ++ toString affectedColumns.length ++ " column(s), representing " ++ pct
      ++ "% of the dataset."]
  let zc := (anomalies.filter (fun a => a.type == .zscore)).length
  let ic := (anomalies.filter (fun a => a.type == .iqr)).length
  let sc := (anomalies.filter (fun a => a.type == .spike)).length
  let dc := (anomalies.filter (fun a => a.type == .drop)).length
  let typeDescriptions : List String :=
    (if zc > 0 then [toString zc ++ " statistical outlier(s)"] else []) ++
    (if ic > 0 then [toString ic ++ " IQR-based anomaly(ies)"] else []) ++
    (if sc > 0 then [toString sc ++ " sudden spike(s)"] else []) ++
    (if dc > 0 then [toString dc ++ " sudden drop(s)"] else [])
  let parts := parts ++ (if typeDescriptions.length > 0 then
    ["Anomaly breakdown: " ++ String.intercalate ", " typeDescriptions ++ "."] else [])
  let sortedColumns := ((countsInOrder (anomalies.map (fun a => a.column))).mergeSort
    (fun a b => decide (b.2 ≤ a.2))).take 3
  let parts := parts ++ (if sortedColumns.length > 0 then
    ["Most affected columns: " ++ String.intercalate ", "
      (sortedColumns.map (fun p => "\"" ++ p.1 ++ "\" (" ++ toString p.2 ++ ")")) ++ "."]
    else [])
  let highSeverity := anomalies.filter (fun a => decide (a.score > (8/10 : ℝ)))
  let parts := parts ++ (if highSeverity.length > 0 then
    [toString highSeverity.length
      ++ " high-severity anomaly(ies) detected that warrant immediate investigation."]
    else [])
  String.intercalate " " parts

/-- anomalies.ts `detectAllAnomalies`. -/
noncomputable def detectAllAnomalies (rows : List DataRow) : AnomalyResult :=
  if rows.length = 0 then
    { anomalies := [], anomalyScore := 0, affectedColumns := []
      explanation := "No data available for anomaly detection." }
  else
  let columnNames := objKeys (rows.getD 0 [])
  let step := columnNames.foldl (fun (acc : List Anomaly × List String) column =>
    let values := extractNumericValues rows column
    if values.length ≥ 10 then
      let anomalies := detectColumnAnomalies rows column
      if anomalies.length > 0 then (acc.1 ++ anomalies, acc.2 ++ [column]) else acc
    else acc) ([], [])
  let sortedAnomalies := (step.1.mergeSort (fun a b => decide (b.score ≤ a.score))).take 100
  let anomalyScore : ℝ :=
    if sortedAnomalies.length > 0 then
      min (((sortedAnomalies.length : ℚ) / (rows.length : ℚ) : ℚ) : ℝ) 1
    else 0
  { anomalies := sortedAnomalies
    anomalyScore := anomalyScore
    affectedColumns := step.2
    explanation := generateAnomalyExplanation sortedAnomalies step.2 rows.length }

/-- `Math.max(...)` over a nonempty list of reals (callers guard emptiness). -/
noncomputable def listMaxR (l : List ℝ) : ℝ :=
  match l with
  | [] => 0
  | x :: rest => rest.foldl max x

/-- Result record of anomalies.ts `getColumnAnomalySummary`. -/
structure ColumnAnomalySummary where
  count : ℕ
  severity : String
  topAnomalies : List Anomaly

/-- anomalies.ts `getColumnAnomalySummary`. -/
noncomputable def getColumnAnomalySummary (rows : List DataRow) (columnName : String) :
    ColumnAnomalySummary :=
  let anomalies := detectColumnAnomalies rows columnName
  let maxScore : ℝ :=
    if anomalies.length > 0 then listMaxR (anomalies.map (fun a => a.score)) else 0
  let severity :=
    if maxScore > 8/10 then "high"
    else if maxScore > 5/10 then "medium"
    else if anomalies.length > 0 then "low"
    else "none"
  { count := anomalies.length, severity := severity, topAnomalies := anomalies.take 5 }

/-! ### Trend analysis (trends.ts) -/

/-- Trend direction classification. -/
inductive TrendDirection where
  | increasing
  | decreasing
  | stable
  | volatile
  deriving DecidableEq

/-- Detected structural shift. -/
structure Shift where
  index : ℕ
  magnitude : ℝ
  description : String

/-- `TrendResult` of types.ts. -/
structure TrendResult where
  column : String
  direction : TrendDirection
  strength : ℚ
  movingAverages : List ℚ
  seasonality : Bool
  seasonalPeriod : Option ℕ := none
  shifts : List Shift
  explanation : String

/-- trends.ts `detectTrendDirection` (direction with volatility override, and
strength `min(|R²|, 1)`). -/
noncomputable def detectTrendDirection (values : List ℚ) : TrendDirection × ℚ :=
  if values.length < 3 then (.stable, 0) else
  let lr := linearRegression values
  let normalizedSlope := lr.slope / (if mean values = 0 then 1 else mean values)
  let direction :=
    if |normalizedSlope| < 1/100 then TrendDirection.stable
    else if normalizedSlope > 0 then TrendDirection.increasing
    else TrendDirection.decreasing
  let std := standardDeviation values
  let avg := mean values
  let cv : ℝ := if avg ≠ 0 then std / |(avg : ℚ)| else 0
  let direction := if cv > 1/2 ∧ lr.r2 < 3/10 then TrendDirection.volatile else direction
  (direction, min |lr.r2| 1)

/-- trends.ts `detectSeasonality`: detrended lag-autocorrelation over the
candidate periods 7, 12, 4, 24, 30; the first period with autocorrelation
above 0.5 wins. -/
def detectSeasonality (values : List ℚ) : Bool × Option ℕ :=
  if values.length < 12 then (false, none) else
  let avg := mean values
  let detrended := values.map (fun v => v - avg)
  let res := ([7, 12, 4, 24, 30] : List ℕ).findSome? (fun period =>
    if values.length < period * 2 then none else
    let correlation := (((List.range values.length).drop period).map (fun i =>
      detrended.getD i 0 * detrended.getD (i - period) 0)).sum
    let variance := (detrended.map (fun v => v * v)).sum
    let autocorr := if variance ≠ 0 then correlation / variance else 0
    if autocorr > 1/2 then some period else none)
  match res with
  | some period => (true, some period)
  | none => (false, none)

/-- trends.ts `detectShifts`: sliding pre/post windows, shifts flagged at
magnitude > 2, top 5 by magnitude. -/
noncomputable def detectShifts (values : List ℚ) : List Shift :=
  if values.length < 5 then [] else
  let windowSize := max 3 (values.length / 10)
  let shifts := ((List.range (values.length - windowSize)).drop windowSize).filterMap
    (fun i =>
      let beforeWindow := (values.drop (i - windowSize)).take windowSize
      let afterWindow := (values.drop i).take windowSize
      let beforeMean := mean beforeWindow
      let afterMean := mean afterWindow
      let beforeStd := standardDeviation beforeWindow
      if beforeStd = 0 then none else
      let changeMagnitude := |(afterMean : ℝ) - (beforeMean : ℝ)| / beforeStd
      if changeMagnitude > 2 then
        let direction := if afterMean > beforeMean then "increase" else "decrease"
        let pctChange :=
          if beforeMean ≠ 0 then toFixed ((afterMean - beforeMean) / |beforeMean| * 100) 1
          else "N/A"
        some { index := i, magnitude := changeMagnitude
               description := "Significant " ++ direction ++ " of " ++ pctChange
                 ++ "% detected at position " ++ toString i }
      else none)
  (shifts.mergeSort (fun a b => decide (b.magnitude ≤ a.magnitude))).take 5

/-- trends.ts `analyzeTrend`. -/
noncomputable def analyzeTrend (rows : List DataRow) (columnName : String) : TrendResult :=
  let values := extractNumericValues rows columnName
  if values.length < 3 then
    { column := columnName, direction := .stable, strength := 0
      movingAverages := values, seasonality := false, shifts := []
      explanation := "Insufficient data points (" ++ toString values.length
        ++ ") for trend analysis." }
  else
  let ds := detectTrendDirection values
  let season := detectSeasonality values
  let shifts := detectShifts values
  let maWindow := max 3 (values.length / 10)
  let ma := movingAverage values maWindow
  let headPart :=
    match ds.1 with
    | .increasing => "The \"" ++ columnName ++ "\" metric shows an upward trend with "
        ++ toFixed (ds.2 * 100) 0 ++ "% confidence."
    | .decreasing => "The \"" ++ columnName ++ "\" metric exhibits a downward trend with "
        ++ toFixed (ds.2 * 100) 0 ++ "% confidence."
    | .volatile => "The \"" ++ columnName
        ++ "\" metric displays high volatility without a clear directional trend."
    | .stable => "The \"" ++ columnName
        ++ "\" metric remains relatively stable over the observed period."
  let explanationParts := [headPart] ++
    (match season with
     | (true, some period) =>
       ["Seasonal patterns detected with an approximate " ++ toString period
         ++ "-period cycle."]
     | _ => []) ++
    (if shifts.length > 0 then
      [toString shifts.length
        ++ " significant shift(s) identified that may indicate structural changes."]
     else [])
  { column := columnName, direction := ds.1, strength := ds.2
    movingAverages := ma, seasonality := season.1, seasonalPeriod := season.2
    shifts := shifts, explanation := String.intercalate " " explanationParts }

/-- trends.ts `analyzeAllTrends`. -/
noncomputable def analyzeAllTrends (rows : List DataRow) : List TrendResult :=
  if rows.length = 0 then [] else
  let columnNames := objKeys (rows.getD 0 [])
  (columnNames.filter (fun column =>
    decide ((extractNumericValues rows column).length ≥ 3))).map
    (fun column => analyzeTrend rows column)

/-- trends.ts `getTrendSummary`. -/
def getTrendSummary (trends : List TrendResult) : String :=
  let increasing := trends.filter (fun t => t.direction == .increasing)
  let decreasing := trends.filter (fun t => t.direction == .decreasing)
  let volatile := trends.filter (fun t => t.direction == .volatile)
  let seasonal := trends.filter (fun t => t.seasonality)
  let parts : List String :=
    (if increasing.length > 0 then
      [toString increasing.length ++ " metric(s) showing growth: "
        ++ String.intercalate ", " (increasing.map (fun t => t.column))] else []) ++
    (if decreasing.length > 0 then
      [toString decreasing.length ++ " metric(s) declining: "
        ++ String.intercalate ", " (decreasing.map (fun t => t.column))] else []) ++
    (if volatile.length > 0 then
      [toString volatile.length ++ " metric(s) with high volatility"] else []) ++
    (if seasonal.length > 0 then
      ["Seasonal patterns detected in: "
        ++ String.intercalate ", " (seasonal.map (fun t => t.column))] else [])
  let s := String.intercalate ". " parts
  if s = "" then "No significant trends detected." else s

/-! ### Forecasting (forecasting.ts)

JS array indexing out of range yields `undefined`, and reading `.value` from
it throws a `TypeError`; forecasting functions are therefore embedded in
`Except String`, the only operations in the engine with a reachable throw. -/

/-- Concrete forecast method recorded in a result. -/
inductive ForecastMethod where
  | linear
  | exponential
  | rolling
  deriving DecidableEq

/-- `method` parameter of `forecast` (adds `auto`). -/
inductive ForecastMethodArg where
  | linear
  | exponential
  | rolling
  | auto
  deriving DecidableEq

/-- Confidence interval of a prediction point. -/
structure ConfidenceI where
  lower : ℝ
  upper : ℝ

/-- One forecast prediction point. -/
structure PredictionPoint where
  period : ℕ
  value : ℚ
  confidence : ConfidenceI

/-- Intermediate `{ predictions, trend }` record of the three forecasters. -/
structure ForecastCore where
  predictions : List PredictionPoint
  trend : String

/-- `ForecastResult` of types.ts. -/
structure ForecastResult where
  column : String
  method : ForecastMethod
  predictions : List PredictionPoint
  trend : String
  interpretation : String

/-- JS array read `l[i]`: `undefined` (`none`) when out of range or negative. -/
def jsIndex {α : Type} (l : List α) (i : ℤ) : Option α :=
  if i < 0 then none else l.get? i.toNat

/-- Property access on a possibly-`undefined` value: throws `TypeError` on
`undefined` (the engine only ever reads `.value` this way). -/
def jsProp {α : Type} (o : Option α) : Except String α :=
  match o with
  | some a => .ok a
  | none => .error "TypeError: Cannot read properties of undefined (reading 'value')"

/-- forecasting.ts `linearForecast`. Trend-percentage strings divide by
`mean(values)`; a zero mean renders via the rational convention `x / 0 = 0`
where JS would print `Infinity` (cosmetic only). -/
noncomputable def linearForecast (values : List ℚ) (periods : ℤ) : ForecastCore :=
  let lr := linearRegression values
  let std := standardDeviation values
  let confidenceMultiplier : ℚ := 196/100
  let predictions := (List.range' 1 periods.toNat).map (fun (i : ℕ) =>
    let predictedValue := lr.slope * ((values.length : ℚ) + (i : ℚ) - 1) + lr.intercept
    let uncertainty : ℝ :=
      std * (confidenceMultiplier : ℝ) * Real.sqrt ((1 + 1 / (values.length : ℚ) : ℚ) : ℝ)
    { period := i, value := predictedValue
      confidence := ⟨(predictedValue : ℝ) - uncertainty * ((1 + (i : ℚ) * (1/10) : ℚ) : ℝ),
                     (predictedValue : ℝ) + uncertainty * ((1 + (i : ℚ) * (1/10) : ℚ) : ℝ)⟩ })
  let trend :=
    if |lr.slope| < 1/100 * mean values then "stable"
    else if lr.slope > 0 then
      "increasing at " ++ toFixed (lr.slope / mean values * 100) 1 ++ "% per period"
    else
      "decreasing at " ++ toFixed (|lr.slope / mean values| * 100) 1 ++ "% per period"
  ⟨predictions, trend⟩

/-- forecasting.ts `exponentialForecast`. `smoothed` is nonempty in every
engine call (≥ 5 values), so the `lastSmoothed` read is modelled with a
default. The `predictions[periods - 1].value` read in the percent-change
computation can throw for non-positive `periods`. -/
noncomputable def exponentialForecast (values : List ℚ) (periods : ℤ)
    (alpha : ℚ := 3/10) : Except String ForecastCore := do
  let smoothed := exponentialSmoothing values alpha
  let lastSmoothed := smoothed.getD (smoothed.length - 1) 0
  let std := standardDeviation values
  let recentSmoothed := smoothed.drop (smoothed.length - min 10 smoothed.length)
  let lr := linearRegression recentSmoothed
  let predictions := (List.range' 1 periods.toNat).map (fun (i : ℕ) =>
    let predictedValue := lastSmoothed + lr.slope * (i : ℚ)
    let uncertainty : ℝ := std * ((196/100 : ℚ) : ℝ) * Real.sqrt ((i : ℚ) : ℝ)
    { period := i, value := predictedValue
      confidence := ⟨(predictedValue : ℝ) - uncertainty, (predictedValue : ℝ) + uncertainty⟩ })
  let pctChange : ℚ ←
    if lastSmoothed ≠ 0 then do
      let finalPred ← jsProp (jsIndex predictions (periods - 1))
      pure ((finalPred.value - lastSmoothed) / |lastSmoothed| * 100)
    else pure 0
  let trend :=
    if |pctChange| < 5 then "expected to remain stable"
    else if pctChange > 0 then "expected to increase by " ++ toFixed pctChange 1 ++ "%"
    else "expected to decrease by " ++ toFixed |pctChange| 1 ++ "%"
  pure ⟨predictions, trend⟩

/-- forecasting.ts `rollingForecast`. `windowSize || default` treats an
explicit `0` as absent (JS falsiness); `ma` is nonempty in every engine call.
The unconditional `predictions[0].value` / `predictions[periods - 1].value`
reads throw for non-positive `periods`. -/
noncomputable def rollingForecast (values : List ℚ) (periods : ℤ)
    (windowSize : Option ℕ := none) : Except String ForecastCore := do
  let window :=
    match windowSize with
    | some w => if w = 0 then max 3 (values.length / 5) else w
    | none => max 3 (values.length / 5)
  let ma := movingAverage values window
  let lastMA := ma.getD (ma.length - 1) 0
  let std := standardDeviation values
  let lr := linearRegression ma
  let predictions := (List.range' 1 periods.toNat).map (fun (i : ℕ) =>
    let predictedValue := lastMA + lr.slope * (i : ℚ)
    let uncertainty : ℝ := std * ((3/2 : ℚ) : ℝ) * Real.sqrt (((i : ℚ) / (window : ℚ) : ℚ) : ℝ)
    { period := i, value := predictedValue
      confidence := ⟨(predictedValue : ℝ) - uncertainty, (predictedValue : ℝ) + uncertainty⟩ })
  let firstPred ← jsProp (jsIndex predictions 0)
  let lastPred ← jsProp (jsIndex predictions (periods - 1))
  let changePct : ℚ :=
    if firstPred.value ≠ 0 then (lastPred.value - firstPred.value) / |firstPred.value| * 100
    else 0
  let trend :=
    if |changePct| < 3 then "stable outlook"
    else if changePct > 0 then "gradual upward trend (+" ++ toFixed changePct 1 ++ "%)"
    else "gradual downward trend (" ++ toFixed changePct 1 ++ "%)"
  pure ⟨predictions, trend⟩

/-- Placeholder prediction for guarded `predictions[0]` reads in string
rendering (reads occur only under a nonemptiness check). -/
def dummyPrediction : PredictionPoint :=
  { period := 0, value := 0, confidence := ⟨0, 0⟩ }

/-- forecasting.ts `generateForecastInterpretation`. -/
noncomputable def generateForecastInterpretation (column : String)
    (method : ForecastMethod) (predictions : List PredictionPoint) (trend : String)
    (changeFromCurrent : ℚ) : String :=
  let methodName :=
    match method with
    | .linear => "linear regression"
    | .exponential => "exponential smoothing"
    | .rolling => "rolling average"
  let parts : List String :=
    ["Forecast for \"" ++ column ++ "\" using " ++ methodName ++ ": " ++ trend ++ "."]
  let parts := parts ++
    (if predictions.length > 0 then
      let firstPred := predictions.getD 0 dummyPrediction
      let lastPred := predictions.getD (predictions.length - 1) dummyPrediction
      ["Short-term prediction (period 1): " ++ toFixed firstPred.value 2
        ++ " (95% CI: " ++ toFixedR firstPred.confidence.lower 2 ++ " - "
        ++ toFixedR firstPred.confidence.upper 2 ++ ")."] ++
      (if predictions.length > 1 then
        ["Extended prediction (period " ++ toString predictions.length ++ "): "
          ++ toFixed lastPred.value 2 ++ " (95% CI: "
          ++ toFixedR lastPred.confidence.lower 2 ++ " - "
          ++ toFixedR lastPred.confidence.upper 2 ++ ")."]
       else [])
     else [])
  let parts := parts ++
    (if |changeFromCurrent| > 10 then
      (if changeFromCurrent > 0 then
        ["This represents a significant projected increase of "
          ++ toFixed changeFromCurrent 1 ++ "% from current levels."]
       else
        ["This represents a significant projected decrease of "
          ++ toFixed |changeFromCurrent| 1 ++ "% from current levels."])
     else
      ["The forecast indicates relatively stable conditions with minimal deviation from current levels."])
  String.intercalate " " parts

/-- forecasting.ts `forecast`: early return below 5 numeric values, method
auto-selection (`R² > 0.7` → linear, else `CV > 0.3` → exponential, else
rolling), then the selected forecaster plus interpretation. The
`finalPredicted.value` read throws when `predictions` is empty and the last
actual value is nonzero. -/
noncomputable def forecast (rows : List DataRow) (columnName : String)
    (periods : ℤ := 7) (method : ForecastMethodArg := .auto) :
    Except String ForecastResult := do
  let values := extractNumericValues rows columnName
  if values.length < 5 then
    return { column := columnName, method := .linear, predictions := []
             trend := "insufficient data"
             interpretation := "Cannot generate forecast for \"" ++ columnName
               ++ "\": insufficient data points (minimum 5 required, found "
               ++ toString values.length ++ ")." }
  let selectedMethod : ForecastMethod :=
    match method with
    | .linear => .linear
    | .exponential => .exponential
    | .rolling => .rolling
    | .auto =>
      let lr := linearRegression values
      let cv : ℝ :=
        standardDeviation values / ((if mean values = 0 then 1 else mean values : ℚ) : ℝ)
      if lr.r2 > 7/10 then .linear
      else if cv > 3/10 then .exponential
      else .rolling
  let result : ForecastCore ←
    match selectedMethod with
    | .linear => pure (linearForecast values periods)
    | .exponential => exponentialForecast values periods
    | .rolling => rollingForecast values periods
  let lastActual := values.getD (values.length - 1) 0
  let changeFromCurrent : ℚ ←
    if lastActual ≠ 0 then do
      let finalPredicted ← jsProp (jsIndex result.predictions ((result.predictions.length : ℤ) - 1))
      pure ((finalPredicted.value - lastActual) / |lastActual| * 100)
    else pure 0
  let interpretation := generateForecastInterpretation columnName selectedMethod
    result.predictions result.trend changeFromCurrent
  pure { column := columnName, method := selectedMethod
         predictions := result.predictions, trend := result.trend
         interpretation := interpretation }

/-- forecasting.ts `forecastAll`: forecast every column of the first row with
at least 5 numeric values. -/
noncomputable def forecastAll (rows : List DataRow) (periods : ℤ := 7) :
    Except String (List ForecastResult) := do
  if rows.length = 0 then return []
  let columnNames := objKeys (rows.getD 0 [])
  (columnNames.filter (fun column =>
    decide ((extractNumericValues rows column).length ≥ 5))).mapM
    (fun column => forecast rows column periods)

/-- forecasting.ts `getForecastSummary`. -/
def getForecastSummary (forecasts : List ForecastResult) : String :=
  if forecasts.length = 0 then "No columns have sufficient data for forecasting."
  else
  let growing := forecasts.filter (fun f =>
    jsIncludes f.trend "increas" || jsIncludes f.trend "upward")
  let declining := forecasts.filter (fun f =>
    jsIncludes f.trend "decreas" || jsIncludes f.trend "downward")
  let stable := forecasts.filter (fun f => jsIncludes f.trend "stable")
  let parts : List String :=
    (if growing.length > 0 then
      [toString growing.length ++ " metric(s) forecasted to grow: "
        ++ String.intercalate ", " (growing.map (fun f => f.column))] else []) ++
    (if declining.length > 0 then
      [toString declining.length ++ " metric(s) forecasted to decline: "
        ++ String.intercalate ", " (declining.map (fun f => f.column))] else []) ++
    (if stable.length > 0 then
      [toString stable.length ++ " metric(s) expected to remain stable"] else [])
  String.intercalate ". " parts ++ "."

/-! ### Correlation analysis (correlations.ts) -/

/-- Correlation strength bands. -/
inductive CorrStrength where
  | strong
  | moderate
  | weak
  | none
  deriving DecidableEq

/-- Kind of association measure. -/
inductive CorrType where
  | pearson
  | cramers_v
  deriving DecidableEq

/-- correlations.ts `getCorrelationStrength`. -/
noncomputable def getCorrelationStrength (coefficient : ℝ) : CorrStrength :=
  let absC := |coefficient|
  if absC ≥ 7/10 then .strong
  else if absC ≥ 4/10 then .moderate
  else if absC ≥ 2/10 then .weak
  else .none

/-- `CorrelationPair` of types.ts. -/
structure CorrelationPair where
  column1 : String
  column2 : String
  coefficient : ℝ
  type : CorrType
  strength : CorrStrength

/-- `Record<string, Record<string, number>>` correlation matrix, as an
insertion-ordered nested association list. -/
abbrev CorrMatrix := List (String × List (String × ℝ))

/-- Nested optional read `matrix[a]?.[b]`. -/
def matrixGet (matrix : CorrMatrix) (a b : String) : Option ℝ :=
  match matrix.find? (fun p => p.1 == a) with
  | some p => (p.2.find? (fun q => q.1 == b)).map Prod.snd
  | none => Option.none

/-- correlations.ts `calculateCorrelationMatrix`: rows of the matrix are built
per numeric column in order; the diagonal is 1 and an already-present mirror
entry is copied instead of recomputed. -/
noncomputable def calculateCorrelationMatrix (rows : List DataRow)
    (columns : Option (List String) := Option.none) : CorrMatrix :=
  if rows.length = 0 then [] else
  let allColumns := columns.getD (objKeys (rows.getD 0 []))
  let numericColumns := allColumns.filter (fun col =>
    detectColumnType (rows.map (fun row => rowGet row col)) == ColumnType.numeric)
  numericColumns.foldl (fun matrix col1 =>
    let values1 := extractNumericValues rows col1
    matrix ++ [(col1, numericColumns.map (fun col2 =>
      (col2,
        if col1 = col2 then (1 : ℝ)
        else
          match matrixGet matrix col2 col1 with
          | some v => v
          | Option.none => pearsonCorrelation values1 (extractNumericValues rows col2))))]) []

/-- correlations.ts `findStrongestCorrelations`: all index pairs `i < j` of
the matrix's columns (`matrix[col1]?.[col2] || 0`), non-`none` strengths,
sorted by descending absolute coefficient, truncated. -/
noncomputable def findStrongestCorrelations (matrix : CorrMatrix) (limit : ℕ := 10) :
    List CorrelationPair :=
  let columns := matrix.map Prod.fst
  let pairs := (columns.enum.map (fun ci =>
    (columns.enum.filter (fun cj => decide (ci.1 < cj.1))).map (fun cj =>
      let coefficient := (matrixGet matrix ci.2 cj.2).getD 0
      ({ column1 := ci.2, column2 := cj.2, coefficient := coefficient
         type := .pearson, strength := getCorrelationStrength coefficient }
        : CorrelationPair)))).flatten
  ((pairs.filter (fun p => p.strength != .none)).mergeSort
    (fun a b => decide (|b.coefficient| ≤ |a.coefficient|))).take limit

/-- `String(row[col] ?? '')`: nullish cells read as the empty string. -/
def jsToStringNullish (v : JsValue) : String :=
  match v with
  | .null => ""
  | .undefVal => ""
  | _ => jsToString v

/-- correlations.ts `calculateCategoricalCorrelations`: Cramér's V over all
categorical/boolean column pairs, retained when above 0.1, sorted by
descending coefficient. -/
noncomputable def calculateCategoricalCorrelations (rows : List DataRow)
    (columns : Option (List String) := Option.none) : List CorrelationPair :=
  if rows.length = 0 then [] else
  let allColumns := columns.getD (objKeys (rows.getD 0 []))
  let categoricalColumns := allColumns.filter (fun col =>
    let t := detectColumnType (rows.map (fun row => rowGet row col))
    t == ColumnType.categorical || t == ColumnType.boolean)
  let pairs := (categoricalColumns.enum.map (fun ci =>
    (categoricalColumns.enum.filter (fun cj => decide (ci.1 < cj.1))).filterMap (fun cj =>
      let values1 := rows.map (fun row => jsToStringNullish (rowGet row ci.2))
      let values2 := rows.map (fun row => jsToStringNullish (rowGet row cj.2))
      let coefficient := cramersV values1 values2
      if coefficient > 1/10 then
        some ({ column1 := ci.2, column2 := cj.2, coefficient := coefficient
                type := .cramers_v, strength := getCorrelationStrength coefficient }
          : CorrelationPair)
      else Option.none))).flatten
  pairs.mergeSort (fun a b => decide (b.coefficient ≤ a.coefficient))

/-- `CorrelationResult` of types.ts. -/
structure CorrelationResult where
  matrix : CorrMatrix
  strongestRelations : List CorrelationPair
  explanation : String

/-- correlations.ts `generateCorrelationExplanation`. -/
noncomputable def generateCorrelationExplanation (numericPairs : List CorrelationPair)
    (categoricalPairs : List CorrelationPair) : String :=
  let strongNumeric := numericPairs.filter (fun p => p.strength == .strong)
  let strongCategorical := categoricalPairs.filter (fun p => p.strength == .strong)
  let parts : List String :=
    if strongNumeric.length = 0 ∧ strongCategorical.length = 0 then
      ["Analysis reveals no strong correlations between variables. This suggests features are largely independent, which can be beneficial for predictive modeling."]
    else
      ["Identified " ++ toString strongNumeric.length
        ++ " strong numeric correlation(s) and " ++ toString strongCategorical.length
        ++ " strong categorical association(s)."]
  let parts := parts ++
    (if strongNumeric.length > 0 then
      let top := strongNumeric.getD 0
        ({ column1 := "", column2 := "", coefficient := 0, type := .pearson
           strength := .none } : CorrelationPair)
      let direction := if top.coefficient > 0 then "positive" else "negative"
      ["The strongest relationship is a " ++ direction ++ " correlation (r="
        ++ toFixedR top.coefficient 2 ++ ") between \"" ++ top.column1 ++ "\" and \""
        ++ top.column2 ++ "\"."] ++
      (if top.coefficient > 9/10 ∨ top.coefficient < -(9/10) then
        ["This very high correlation may indicate redundancy or multicollinearity, suggesting one variable could potentially be removed without significant information loss."]
       else [])
     else [])
  let moderatePairs := numericPairs.filter (fun p => p.strength == .moderate)
  let parts := parts ++
    (if moderatePairs.length > 0 then
      ["Additionally, " ++ toString moderatePairs.length
        ++ " moderate correlation(s) were detected, indicating meaningful but not deterministic relationships."]
     else [])
  let parts := parts ++
    (if strongCategorical.length > 0 then
      ["Among categorical variables, notable associations exist that may warrant further investigation for feature engineering or segmentation analysis."]
     else [])
  String.intercalate " " parts

/-- correlations.ts `analyzeCorrelations`. -/
noncomputable def analyzeCorrelations (rows : List DataRow) : CorrelationResult :=
  if rows.length = 0 then
    { matrix := [], strongestRelations := []
      explanation := "No data available for correlation analysis." }
  else
  let matrix := calculateCorrelationMatrix rows
  let numericPairs := findStrongestCorrelations matrix
  let categoricalPairs := calculateCategoricalCorrelations rows
  let allPairs := ((numericPairs ++ categoricalPairs).mergeSort
    (fun a b => decide (|b.coefficient| ≤ |a.coefficient|))).take 15
  { matrix := matrix, strongestRelations := allPairs
    explanation := generateCorrelationExplanation numericPairs categoricalPairs }

/-- Lower-case name of a strength band. -/
def strengthStr : CorrStrength → String
  | .strong => "strong"
  | .moderate => "moderate"
  | .weak => "weak"
  | .none => "none"

/-- Capitalized name of a strength band
(`strength.charAt(0).toUpperCase() + strength.slice(1)`). -/
def strengthStrCap : CorrStrength → String
  | .strong => "Strong"
  | .moderate => "Moderate"
  | .weak => "Weak"
  | .none => "None"

/-- Result record of correlations.ts `getColumnCorrelation`. -/
structure ColumnCorrelation where
  coefficient : ℝ
  strength : CorrStrength
  interpretation : String

/-- correlations.ts `getColumnCorrelation`. -/
noncomputable def getColumnCorrelation (rows : List DataRow) (column1 column2 : String) :
    ColumnCorrelation :=
  let values1 := rows.map (fun row => rowGet row column1)
  let values2 := rows.map (fun row => rowGet row column2)
  let type1 := detectColumnType values1
  let type2 := detectColumnType values2
  let numericCase := type1 == ColumnType.numeric && type2 == ColumnType.numeric
  let coefficient :=
    if numericCase then
      pearsonCorrelation (extractNumericValues rows column1) (extractNumericValues rows column2)
    else cramersV (values1.map jsToString) (values2.map jsToString)
  let method := if numericCase then "Pearson" else "Cramer's V"
  let strength := getCorrelationStrength coefficient
  let interpretation :=
    if strength == CorrStrength.none then
      "No significant relationship between \"" ++ column1 ++ "\" and \"" ++ column2
        ++ "\" (" ++ method ++ ": " ++ toFixedR coefficient 3 ++ ")."
    else
      let direction := if coefficient > 0 then "positive" else "negative"
      strengthStrCap strength ++ " " ++ direction ++ " relationship between \""
        ++ column1 ++ "\" and \"" ++ column2 ++ "\" (" ++ method ++ ": "
        ++ toFixedR coefficient 3 ++ ")."
  { coefficient := coefficient, strength := strength, interpretation := interpretation }

/-- Entry of correlations.ts `findCorrelatedFeatures`. -/
structure CorrFeature where
  column : String
  correlation : ℝ
  strength : CorrStrength

/-- correlations.ts `findCorrelatedFeatures`: rank other columns against a
target by Pearson (numeric target) or Cramér's V (non-numeric target). -/
noncomputable def findCorrelatedFeatures (rows : List DataRow) (targetColumn : String)
    (limit : ℕ := 10) : List CorrFeature :=
  if rows.length = 0 then [] else
  let columns := (objKeys (rows.getD 0 [])).filter (fun c => c != targetColumn)
  let targetValues := extractNumericValues rows targetColumn
  if targetValues.length = 0 then
    let targetStrings := rows.map (fun row => jsToStringNullish (rowGet row targetColumn))
    (((columns.map (fun col =>
      let colStrings := rows.map (fun row => jsToStringNullish (rowGet row col))
      let correlation := cramersV targetStrings colStrings
      ({ column := col, correlation := correlation
         strength := getCorrelationStrength correlation } : CorrFeature))).filter
      (fun r => r.strength != .none)).mergeSort
      (fun a b => decide (|b.correlation| ≤ |a.correlation|))).take limit
  else
    (((columns.map (fun col =>
      let colValues := extractNumericValues rows col
      let correlation :=
        if colValues.length ≥ 3 then pearsonCorrelation targetValues colValues else 0
      ({ column := col, correlation := correlation
         strength := getCorrelationStrength correlation } : CorrFeature))).filter
      (fun r => r.strength != .none)).mergeSort
      (fun a b => decide (|b.correlation| ≤ |a.correlation|))).take limit

/-! ### Statistical summary (statistics.ts) -/

/-- Distribution classification record. -/
structure DistInfo where
  type : String
  description : String

/-- statistics.ts `detectDistribution`. A zero standard deviation makes the
JS skewness NaN (all three threshold comparisons false), falling through to
the bimodal check; that is modelled by the `none` skewness case. -/
noncomputable def detectDistribution (values : List ℚ) : DistInfo :=
  if values.length < 10 then ⟨"insufficient_data", "Not enough data points"⟩ else
  let avg := mean values
  let std := standardDeviation values
  let skewness : Option ℝ :=
    if std = 0 then Option.none
    else some ((values.map (fun v => (((v - avg : ℚ) : ℝ) / std) ^ 3)).sum / values.length)
  let bimodalCheck : DistInfo :=
    let p25 := percentile values 25
    let p75 := percentile values 75
    let midRange := values.filter (fun v => decide (p25 ≤ v ∧ v ≤ p75))
    if (midRange.length : ℚ) < (values.length : ℚ) * (3/10) then
      ⟨"bimodal", "Potentially bimodal distribution"⟩
    else ⟨"unknown", "Non-standard distribution pattern"⟩
  match skewness with
  | some sk =>
    if |sk| < 1/2 then ⟨"normal", "Approximately normal distribution"⟩
    else if sk > 1 then ⟨"right_skewed", "Right-skewed (positive skew) distribution"⟩
    else if sk < -1 then ⟨"left_skewed", "Left-skewed (negative skew) distribution"⟩
    else bimodalCheck
  | Option.none => bimodalCheck

/-- Outlier tally of statistics.ts `findOutliers`. -/
structure OutlierInfo where
  count : ℕ
  values : List ℚ

/-- statistics.ts `findOutliers` (IQR rule, first 10 values kept). -/
def findOutliers (values : List ℚ) : OutlierInfo :=
  if values.length < 4 then ⟨0, []⟩ else
  let q := quartiles values
  let iqr := q.q3 - q.q1
  let lowerBound := q.q1 - 3/2 * iqr
  let upperBound := q.q3 + 3/2 * iqr
  let outliers := values.filter (fun v => decide (v < lowerBound ∨ v > upperBound))
  ⟨outliers.length, outliers.take 10⟩

/-- Distribution entry of `StatisticalSummary`. -/
structure DistEntry where
  column : String
  type : String
  description : String

/-- Outlier entry of `StatisticalSummary`. -/
structure OutlierEntry where
  column : String
  count : ℕ
  description : String

/-- `StatisticalSummary` of types.ts (`keyMetrics` is a string-keyed record of
numbers and strings, in insertion order). -/
structure StatisticalSummary where
  overview : String
  keyMetrics : List (String × JsValue)
  distributions : List DistEntry
  outliers : List OutlierEntry
  correlationHighlights : List String
  narrative : String

/-- Placeholder column profile for guarded indexed reads. -/
def dummyColumnProfile : ColumnProfile :=
  { name := "", type := .text, nullCount := 0, totalCount := 0, uniqueCount := 0
    topValues := [] }

/-- Numeric reading of a min/max profile field (`topCol.min as number`). -/
def profValAsNumber : ProfVal → ℚ
  | .num q => q
  | .date t => (t : ℚ)

/-- statistics.ts `generateNarrative` (three-paragraph narrative). -/
noncomputable def generateNarrative (profile : DatasetProfile)
    (numericColumns : List ColumnProfile) (outliers : List OutlierEntry)
    (correlations : List String) : String :=
  let numericPct : ℤ :=
    if profile.columnCount > 0 then
      ⌊((numericColumns.length : ℚ) / (profile.columnCount : ℚ)) * 100 + 1/2⌋
    else 0
  let p1 := "This dataset comprises " ++ toLocaleStringNat profile.rowCount
    ++ " observations with " ++ toString profile.columnCount ++ " features. "
    ++ "Approximately " ++ toString numericPct
    ++ "% of the variables are numeric, enabling quantitative analysis. "
    ++ "The overall data completeness stands at " ++ jsNumToString profile.completeness
    ++ "%, indicating "
    ++ (if profile.completeness ≥ 95 then "excellent"
        else if profile.completeness ≥ 80 then "good" else "moderate")
    ++ " data quality."
  let p2 :=
    if numericColumns.length > 0 then
      let topCol := numericColumns.getD 0 dummyColumnProfile
      let rangeDescription :=
        match topCol.min, topCol.max with
        | some mn, some mx =>
          "ranging from " ++ formatNumber (profValAsNumber mn) ++ " to "
            ++ formatNumber (profValAsNumber mx)
        | _, _ => ""
      ["Key numeric variables show diverse distributions. The primary metric \""
        ++ topCol.name ++ "\" " ++ rangeDescription ++ " with a mean of "
        ++ (match topCol.mean with
            | some m => formatNumber m
            | Option.none => "N/A") ++ ". "
        ++ (if outliers.length > 0 then
             "Notable outliers were detected in " ++ toString outliers.length
               ++ " column(s), warranting further investigation."
            else "No significant outliers were detected in the primary variables.")]
    else []
  let p3 :=
    if correlations.length > 0 then
      "Analysis reveals " ++ toString correlations.length
        ++ " significant correlation(s) between variables. " ++ correlations.getD 0 "" ++ ". "
        ++ "These relationships may indicate underlying patterns or potential multicollinearity in predictive modeling."
    else
      "Initial correlation analysis shows no strong linear relationships between numeric variables. This suggests either independent features or potential non-linear relationships that may require further investigation using advanced techniques."
  String.intercalate "\n\n" ([p1] ++ p2 ++ [p3])

/-- statistics.ts `generateStatisticalSummary`. -/
noncomputable def generateStatisticalSummary (rows : List DataRow)
    (profile : Option DatasetProfile := Option.none) : StatisticalSummary :=
  let dataProfile :=
    match profile with
    | some p => p
    | Option.none => profileDataset rows
  let numericColumns := getColumnsByType dataProfile .numeric
  let keyMetrics : List (String × JsValue) :=
    [("totalRows", .num (dataProfile.rowCount : ℚ)),
     ("totalColumns", .num (dataProfile.columnCount : ℚ)),
     ("completeness", .str (jsNumToString dataProfile.completeness ++ "%")),
     ("numericColumns", .num (numericColumns.length : ℚ))] ++
    ((numericColumns.take 5).filterMap (fun col =>
      col.mean.map (fun m => (col.name ++ "_mean", JsValue.str (formatNumber m)))))
  let distributions := numericColumns.map (fun col =>
    let values := extractNumericValues rows col.name
    let dist := detectDistribution values
    ({ column := col.name, type := dist.type, description := dist.description } : DistEntry))
  let outliers := (numericColumns.map (fun col =>
    let values := extractNumericValues rows col.name
    let o := findOutliers values
    let percentage :=
      if values.length > 0 then toFixed ((o.count : ℚ) / (values.length : ℚ) * 100) 1
      else "0"
    ({ column := col.name, count := o.count
       description :=
         if o.count > 0 then
           toString o.count ++ " outliers detected (" ++ percentage ++ "% of values)"
         else "No significant outliers" } : OutlierEntry))).filter (fun o => o.count > 0)
  let correlationHighlights : List String :=
    if numericColumns.length ≥ 2 then
      let top := (numericColumns.take 5).enum
      (top.map (fun ci =>
        (top.filter (fun cj => decide (ci.1 < cj.1))).filterMap (fun cj =>
          let values1 := extractNumericValues rows ci.2.name
          let values2 := extractNumericValues rows cj.2.name
          let corr := pearsonCorrelation values1 values2
          if |corr| > 7/10 then
            let direction := if corr > 0 then "positive" else "negative"
            some ("Strong " ++ direction ++ " correlation (" ++ toFixedR corr 2
              ++ ") between " ++ ci.2.name ++ " and " ++ cj.2.name)
          else Option.none))).flatten
    else []
  { overview := "Dataset contains " ++ toLocaleStringNat dataProfile.rowCount
      ++ " records across " ++ toString dataProfile.columnCount ++ " variables with "
      ++ jsNumToString dataProfile.completeness ++ "% data completeness."
    keyMetrics := keyMetrics
    distributions := distributions
    outliers := outliers
    correlationHighlights := correlationHighlights
    narrative := generateNarrative dataProfile numericColumns outliers correlationHighlights }

/-- `formatNumber` applied to a real quantity (only the standard deviation in
`getColumnStats`). -/
noncomputable def formatNumberR (value : ℝ) (decimals : ℕ := 2) : String :=
  if |value| ≥ 1000000000 then toFixedR (value / 1000000000) decimals ++ "B"
  else if |value| ≥ 1000000 then toFixedR (value / 1000000) decimals ++ "M"
  else if |value| ≥ 1000 then toFixedR (value / 1000) decimals ++ "K"
  else toFixedR value decimals

/-- statistics.ts `getColumnStats`. -/
noncomputable def getColumnStats (rows : List DataRow) (columnName : String) :
    List (String × JsValue) :=
  let values := extractNumericValues rows columnName
  if values.length = 0 then [("error", .str "No numeric values found")] else
  let q := quartiles values
  [("count", .num (values.length : ℚ)),
   ("min", .str (formatNumber (listMin values))),
   ("max", .str (formatNumber (listMax values))),
   ("mean", .str (formatNumber (mean values))),
   ("std", .str (formatNumberR (standardDeviation values))),
   ("q25", .str (formatNumber q.q1)),
   ("median", .str (formatNumber q.q2)),
   ("q75", .str (formatNumber q.q3))]

/-! ### Insight synthesis (insights.ts) -/

/-- Kind of an insight. -/
inductive InsightType where
  | observation
  | recommendation
  | warning
  | opportunity
  deriving DecidableEq

/-- Insight importance level. -/
inductive Importance where
  | high
  | medium
  | low
  deriving DecidableEq

/-- `Insight` of types.ts. -/
structure Insight where
  type : InsightType
  category : String
  title : String
  description : String
  importance : Importance
  relatedColumns : List String

/-- Sort key of the `importanceOrder` map (high 0, medium 1, low 2). -/
def impOrd : Importance → ℕ
  | .high => 0
  | .medium => 1
  | .low => 2

/-- insights.ts `generateKeyInsights`. -/
noncomputable def generateKeyInsights (rows : List DataRow) (profile : DatasetProfile) :
    List Insight :=
  let highNullCols := findHighNullColumns profile (1/10)
  let insights : List Insight :=
    (if highNullCols.length > 0 then
      [{ type := .warning, category := "Data Quality", title := "Missing Data Detected"
         description := toString highNullCols.length
           ++ " column(s) have more than 10% missing values: "
           ++ String.intercalate ", " (highNullCols.map (fun c => c.name))
           ++ ". Consider imputation or investigation."
         importance :=
           if highNullCols.any (fun c =>
             decide ((c.nullCount : ℚ) / (c.totalCount : ℚ) > 3/10)) then .high else .medium
         relatedColumns := highNullCols.map (fun c => c.name) }]
     else [])
  let idCols := findPotentialIdColumns profile
  let insights := insights ++
    (if idCols.length > 0 then
      [{ type := .observation, category := "Data Structure"
         title := "Potential Identifier Columns"
         description := "Columns \"" ++ String.intercalate ", " (idCols.map (fun c => c.name))
           ++ "\" appear to be unique identifiers and may not be useful for analysis."
         importance := .low
         relatedColumns := idCols.map (fun c => c.name) }]
     else [])
  let anomalyResult := detectAllAnomalies rows
  let insights := insights ++
    (if anomalyResult.anomalies.length > 0 then
      let highSeverity := anomalyResult.anomalies.filter (fun a => decide (a.score > 8/10))
      [{ type := if highSeverity.length > 5 then .warning else .observation
         category := "Anomalies", title := "Anomalous Data Points Detected"
         description := "Found " ++ toString anomalyResult.anomalies.length
           ++ " anomalies across " ++ toString anomalyResult.affectedColumns.length
           ++ " column(s). "
           ++ (if highSeverity.length > 0 then
                toString highSeverity.length ++ " require immediate attention." else "")
         importance := if highSeverity.length > 5 then .high else .medium
         relatedColumns := anomalyResult.affectedColumns }]
     else [])
  let trends := analyzeAllTrends rows
  let increasingTrends := trends.filter (fun t =>
    t.direction == .increasing && decide (t.strength > 1/2))
  let decreasingTrends := trends.filter (fun t =>
    t.direction == .decreasing && decide (t.strength > 1/2))
  let insights := insights ++
    (if increasingTrends.length > 0 then
      [{ type := .opportunity, category := "Trends", title := "Growth Trends Identified"
         description := toString increasingTrends.length
           ++ " metric(s) showing significant upward trends: "
           ++ String.intercalate ", " (increasingTrends.map (fun t => t.column)) ++ "."
         importance := .high
         relatedColumns := increasingTrends.map (fun t => t.column) }]
     else [])
  let insights := insights ++
    (if decreasingTrends.length > 0 then
      [{ type := .warning, category := "Trends", title := "Declining Trends Detected"
         description := toString decreasingTrends.length
           ++ " metric(s) showing downward trends: "
           ++ String.intercalate ", " (decreasingTrends.map (fun t => t.column))
           ++ ". Investigation recommended."
         importance := .high
         relatedColumns := decreasingTrends.map (fun t => t.column) }]
     else [])
  let correlations := analyzeCorrelations rows
  let strongCorr := correlations.strongestRelations.filter (fun c => c.strength == .strong)
  let insights := insights ++
    (if strongCorr.length > 0 then
      let multicollinear := strongCorr.filter (fun c => decide (|c.coefficient| > 9/10))
      if multicollinear.length > 0 then
        [{ type := .warning, category := "Correlations", title := "Potential Multicollinearity"
           description := "Very high correlations (>0.9) detected between "
             ++ toString multicollinear.length
             ++ " variable pair(s). This may cause issues in predictive models."
           importance := .medium
           relatedColumns :=
             ((multicollinear.map (fun c => [c.column1, c.column2])).flatten).eraseDups }]
      else
        [{ type := .observation, category := "Correlations"
           title := "Strong Variable Relationships"
           description := "Identified " ++ toString strongCorr.length
             ++ " strong correlation(s) that may indicate important relationships or dependencies."
           importance := .medium
           relatedColumns :=
             ((strongCorr.map (fun c => [c.column1, c.column2])).flatten).eraseDups }]
     else [])
  let numericCols := profile.columns.filter (fun c => c.type == .numeric)
  let highVarianceCols := numericCols.filter (fun c =>
    match c.stdDev, c.mean with
    | some sd, some m => if m = 0 then false else decide (|sd / ((m : ℚ) : ℝ)| > 1)
    | _, _ => false)
  let insights := insights ++
    (if highVarianceCols.length > 0 then
      [{ type := .observation, category := "Distribution", title := "High Variance Columns"
         description := toString highVarianceCols.length
           ++ " column(s) show high coefficient of variation: "
           ++ String.intercalate ", " (highVarianceCols.map (fun c => c.name))
           ++ ". Consider normalization."
         importance := .low
         relatedColumns := highVarianceCols.map (fun c => c.name) }]
     else [])
  insights.mergeSort (fun a b => decide (impOrd a.importance ≤ impOrd b.importance))

/-- insights.ts `generateExecutiveSummary`. -/
noncomputable def generateExecutiveSummary (rows : List DataRow)
    (profile : DatasetProfile) (insights : List Insight) : String :=
  let _ := rows
  let parts : List String :=
    ["Analysis of " ++ toLocaleStringNat profile.rowCount ++ " records across "
      ++ toString profile.columnCount ++ " variables reveals a dataset with "
      ++ jsNumToString profile.completeness ++ "% completeness."]
  let highPriorityInsights := insights.filter (fun i => i.importance == .high)
  let parts := parts ++
    (if highPriorityInsights.length > 0 then
      [toString highPriorityInsights.length ++ " high-priority finding(s) require attention: "
        ++ String.intercalate ", " (highPriorityInsights.map (fun i => jsToLower i.title))
        ++ "."]
     else [])
  let opportunities := insights.filter (fun i => i.type == .opportunity)
  let parts := parts ++
    (if opportunities.length > 0 then
      ["Notable opportunities identified include "
        ++ String.intercalate " and " (opportunities.map (fun o => jsToLower o.title)) ++ "."]
     else [])
  let warnings := insights.filter (fun i => i.type == .warning)
  let parts := parts ++
    (if warnings.length > 0 then
      ["Areas requiring investigation: "
        ++ String.intercalate ", " (warnings.map (fun w => jsToLower w.title)) ++ "."]
     else [])
  String.intercalate " " parts

/-- insights.ts `generateRecommendations` (category-templated advice plus the
generic monitoring line, capped at 7). -/
def generateRecommendations (insights : List Insight) : List String :=
  let recommendations := insights.foldl (fun acc insight =>
    acc ++
    (if insight.type == .warning && insight.category == "Data Quality" then
      ["Address missing data in " ++ String.intercalate ", " insight.relatedColumns
        ++ " through imputation or removal."] else []) ++
    (if insight.type == .warning && insight.category == "Anomalies" then
      ["Investigate anomalous values in " ++ String.intercalate ", " insight.relatedColumns
        ++ " to determine if they are errors or genuine outliers."] else []) ++
    (if insight.type == .opportunity && insight.category == "Trends" then
      ["Capitalize on growth trends in " ++ String.intercalate ", " insight.relatedColumns
        ++ " by allocating resources to these areas."] else []) ++
    (if insight.type == .warning && insight.category == "Trends" then
      ["Address declining metrics in " ++ String.intercalate ", " insight.relatedColumns
        ++ " through root cause analysis."] else []) ++
    (if insight.type == .warning && insight.category == "Correlations" then
      ["Consider dimensionality reduction or feature selection to address multicollinearity."]
     else [])) []
  (recommendations
    ++ ["Establish ongoing monitoring for key metrics to track changes over time."]).take 7

/-- insights.ts `suggestVisualizations` (deduplicated chart-type list). -/
def suggestVisualizations (profile : DatasetProfile) (insights : List Insight) :
    List String :=
  let numericCols := (profile.columns.filter (fun c => c.type == .numeric)).length
  let categoricalCols := (profile.columns.filter (fun c => c.type == .categorical)).length
  let datetimeCols := (profile.columns.filter (fun c => c.type == .datetime)).length
  let suggestions :=
    (if datetimeCols > 0 ∧ numericCols > 0 then ["line", "area"] else []) ++
    (if numericCols > 0 then ["histogram", "box"] else []) ++
    (if categoricalCols > 0 then ["bar", "pie"] else []) ++
    (if numericCols ≥ 2 then ["scatter", "heatmap"] else []) ++
    (if insights.any (fun i => i.category == "Anomalies") then ["scatter"] else []) ++
    (if insights.any (fun i => i.category == "Trends") then ["line"] else [])
  suggestions.eraseDups

/-! ### Query router (analyze.ts) -/

/-- Query intents. -/
inductive Intent where
  | summary
  | anomalies
  | forecast
  | trends
  | correlation
  | explain
  | profile
  deriving DecidableEq

/-- The optional `insights` sub-object of an `InsightResponse`. -/
structure InsightsBundle where
  profile : Option DatasetProfile := Option.none
  statistics : Option StatisticalSummary := Option.none
  trends : Option (List TrendResult) := Option.none
  anomalies : Option AnomalyResult := Option.none
  forecasts : Option (List ForecastResult) := Option.none
  correlations : Option CorrelationResult := Option.none
  keyInsights : Option (List Insight) := Option.none

/-- The empty `insights: {}` object. -/
def emptyInsights : InsightsBundle := {}

/-- `InsightResponse` of types.ts. -/
structure InsightResponse where
  query : String
  intent : Intent
  insights : InsightsBundle
  textSummary : String
  recommendedCharts : List String
  executiveSummary : Option String := Option.none
  recommendations : Option (List String) := Option.none

/-- insights.ts `generateCompleteAnalysis`: every analyzer once, assembled. -/
noncomputable def generateCompleteAnalysis (rows : List DataRow) :
    Except String InsightResponse := do
  let profile := profileDataset rows
  let statistics := generateStatisticalSummary rows (some profile)
  let trends := analyzeAllTrends rows
  let anomalies := detectAllAnomalies rows
  let forecasts ← forecastAll rows
  let correlations := analyzeCorrelations rows
  let keyInsights := generateKeyInsights rows profile
  let executiveSummary := generateExecutiveSummary rows profile keyInsights
  let recommendations := generateRecommendations keyInsights
  let charts := suggestVisualizations profile keyInsights
  pure { query := "Complete dataset analysis", intent := .summary
         insights := { profile := some profile, statistics := some statistics
                       trends := some trends, anomalies := some anomalies
                       forecasts := some forecasts, correlations := some correlations
                       keyInsights := some keyInsights }
         textSummary := statistics.narrative
         recommendedCharts := charts
         executiveSummary := some executiveSummary
         recommendations := some recommendations }

/-- Case-insensitive literal match; returns the remaining input. The pattern
argument is given lower-case. -/
def matchLitCI : List Char → List Char → Option (List Char)
  | [], l => some l
  | _ :: _, [] => Option.none
  | p :: ps, c :: cs => if p.toLower = c.toLower then matchLitCI ps cs else Option.none

/-- Capture of `["']?(\w+)`: optional quote, then one or more word
characters (greedy); the quote is not a word character, so the regex's
optional-quote backtracking is deterministic. -/
def captureWord (l : List Char) : Option (List Char) :=
  let l2 :=
    match l with
    | c :: rest => if c = '"' ∨ c = '\'' then rest else l
    | [] => l
  let w := l2.takeWhile isWordChar
  if w.isEmpty then Option.none else some w

/-- First alternative `column\s+["']?(\w+)["']?` of the column regex
(the trailing optional quote never affects the capture). -/
def columnAlt1 (l : List Char) : Option (List Char) :=
  match matchLitCI "column".data l with
  | Option.none => Option.none
  | some r1 =>
    if (r1.takeWhile isJsSpace).isEmpty then Option.none
    else captureWord (r1.dropWhile isJsSpace)

/-- Second alternative `["'](\w+)["']\s+column` (closing quote need not match
the opening one, as in the source regex). -/
def columnAlt2 (l : List Char) : Option (List Char) :=
  match l with
  | [] => Option.none
  | c :: rest =>
    if c = '"' ∨ c = '\'' then
      let w := rest.takeWhile isWordChar
      let r1 := rest.dropWhile isWordChar
      if w.isEmpty then Option.none
      else
        match r1 with
        | [] => Option.none
        | q :: r2 =>
          if q = '"' ∨ q = '\'' then
            if (r2.takeWhile isJsSpace).isEmpty then Option.none
            else if (matchLitCI "column".data (r2.dropWhile isJsSpace)).isSome then some w
            else Option.none
          else Option.none
    else Option.none

/-- Suffix `\s*["']?(\w+)["']?` of the third alternative. -/
def columnAlt3Tail (r : List Char) : Option (List Char) :=
  captureWord (r.dropWhile isJsSpace)

/-- Third alternative `(?:what|explain|analyze)\s+(?:is|about)?\s*["']?(\w+)["']?`,
with the regex's backtracking over the optional `is`/`about` group. -/
def columnAlt3 (l : List Char) : Option (List Char) :=
  let afterKw :=
    match matchLitCI "what".data l with
    | some r => some r
    | Option.none =>
      match matchLitCI "explain".data l with
      | some r => some r
      | Option.none => matchLitCI "analyze".data l
  match afterKw with
  | Option.none => Option.none
  | some r1 =>
    if (r1.takeWhile isJsSpace).isEmpty then Option.none
    else
      let r2 := r1.dropWhile isJsSpace
      let viaAbout :=
        match matchLitCI "about".data r2 with
        | some r4 =>
          match columnAlt3Tail r4 with
          | some w => some w
          | Option.none => columnAlt3Tail r2
        | Option.none => columnAlt3Tail r2
      match matchLitCI "is".data r2 with
      | some r3 =>
        match columnAlt3Tail r3 with
        | some w => some w
        | Option.none => viaAbout
      | Option.none => viaAbout

/-- Leftmost-first match of the column-mention regex of `detectIntent`
(alternatives tried in order at each position, scanning left to right). -/
def columnRegexMatch : List Char → Option (List Char)
  | [] => Option.none
  | l@(_ :: rest) =>
    match columnAlt1 l with
    | some w => some w
    | Option.none =>
      match columnAlt2 l with
      | some w => some w
      | Option.none =>
        match columnAlt3 l with
        | some w => some w
        | Option.none => columnRegexMatch rest

/-- Result of analyze.ts `detectIntent`. -/
structure IntentResult where
  intent : Intent
  targetColumn : Option String
  deriving DecidableEq

/-- analyze.ts `detectIntent`: keyword-priority intent classification plus
optional target-column extraction. -/
def detectIntent (query : String) : IntentResult :=
  let lowerQuery := jsToLower query
  let targetColumn := (columnRegexMatch query.data).map (fun w => String.mk w)
  if jsIncludes lowerQuery "profile" || jsIncludes lowerQuery "overview"
      || jsIncludes lowerQuery "structure" then
    ⟨.profile, targetColumn⟩
  else if jsIncludes lowerQuery "summar" || jsIncludes lowerQuery "describe"
      || jsIncludes lowerQuery "tell me about" then
    ⟨.summary, targetColumn⟩
  else if jsIncludes lowerQuery "anomal" || jsIncludes lowerQuery "outlier"
      || jsIncludes lowerQuery "unusual" || jsIncludes lowerQuery "strange" then
    ⟨.anomalies, targetColumn⟩
  else if jsIncludes lowerQuery "forecast" || jsIncludes lowerQuery "predict"
      || jsIncludes lowerQuery "future" || jsIncludes lowerQuery "project" then
    ⟨.forecast, targetColumn⟩
  else if jsIncludes lowerQuery "trend" || jsIncludes lowerQuery "pattern"
      || jsIncludes lowerQuery "over time" || jsIncludes lowerQuery "direction" then
    ⟨.trends, targetColumn⟩
  else if jsIncludes lowerQuery "correlat" || jsIncludes lowerQuery "relation"
      || jsIncludes lowerQuery "connect" || jsIncludes lowerQuery "affect" then
    ⟨.correlation, targetColumn⟩
  else if jsIncludes lowerQuery "explain" || jsIncludes lowerQuery "what is"
      || jsIncludes lowerQuery "happening" then
    ⟨.explain, targetColumn⟩
  else ⟨.summary, targetColumn⟩

/-- Source string of a column type. -/
def columnTypeStr : ColumnType → String
  | .numeric => "numeric"
  | .categorical => "categorical"
  | .datetime => "datetime"
  | .boolean => "boolean"
  | .text => "text"

/-- Source string of a trend direction. -/
def trendDirectionStr : TrendDirection → String
  | .increasing => "increasing"
  | .decreasing => "decreasing"
  | .stable => "stable"
  | .volatile => "volatile"

/-- Template rendering `${v}` of a top-value key. -/
def keyValStr : KeyVal → String
  | .num (some q) => jsNumToString q
  | .num Option.none => "NaN"
  | .str s => s

/-- Template rendering of `${colProfile.min}` (numeric branch only). -/
def renderProfValTemplate : Option ProfVal → String
  | some (.num q) => jsNumToString q
  | some (.date t) => toString t
  | Option.none => "undefined"

/-- Template rendering of `${colProfile.stdDev?.toFixed(2)}`. -/
noncomputable def renderStdFixed : Option ℝ → String
  | some s => toFixedR s 2
  | Option.none => "undefined"

/-- Placeholder anomaly for guarded `topAnomalies[0]` reads. -/
def dummyAnomaly : Anomaly :=
  { rowIndex := 0, column := "", value := 0, expectedRange := ⟨0, 0⟩, score := 0
    type := .zscore }

/-- analyze.ts `handleProfileQuery`. -/
noncomputable def handleProfileQuery (rows : List DataRow) : InsightResponse :=
  let profile := profileDataset rows
  { query := "Dataset profile", intent := .profile
    insights := { profile := some profile }
    textSummary := generateProfileSummary profile
    recommendedCharts := ["bar", "pie"] }

/-- analyze.ts `handleSummaryQuery`. -/
noncomputable def handleSummaryQuery (rows : List DataRow)
    (targetColumn : Option String) : InsightResponse :=
  let profile := profileDataset rows
  let colCase : Option InsightResponse :=
    match targetColumn with
    | some t =>
      match profile.columns.find? (fun c => jsToLower c.name == jsToLower t) with
      | some colProfile =>
        let stats := getColumnStats rows colProfile.name
        some { query := "Summary of " ++ t, intent := .summary
               insights := { profile := some profile }
               textSummary := "Column \"" ++ colProfile.name ++ "\" ("
                 ++ columnTypeStr colProfile.type ++ "): "
                 ++ String.intercalate ", "
                   (stats.map (fun p => p.1 ++ ": " ++ jsToString p.2))
               recommendedCharts :=
                 if colProfile.type = .numeric then ["histogram", "box"] else ["bar", "pie"] }
      | Option.none => Option.none
    | Option.none => Option.none
  match colCase with
  | some r => r
  | Option.none =>
    let statistics := generateStatisticalSummary rows (some profile)
    let keyInsights := generateKeyInsights rows profile
    { query := "Dataset summary", intent := .summary
      insights := { profile := some profile, statistics := some statistics
                    keyInsights := some keyInsights }
      textSummary := statistics.narrative
      recommendedCharts := suggestVisualizations profile keyInsights
      executiveSummary := some (generateExecutiveSummary rows profile keyInsights)
      recommendations := some (generateRecommendations keyInsights) }

/-- analyze.ts `handleAnomalyQuery`. -/
noncomputable def handleAnomalyQuery (rows : List DataRow)
    (targetColumn : Option String) : InsightResponse :=
  match targetColumn with
  | some t =>
    let summary := getColumnAnomalySummary rows t
    { query := "Anomalies in " ++ t, intent := .anomalies
      insights := { anomalies := some {
        anomalies := summary.topAnomalies
        anomalyScore :=
          if summary.topAnomalies.length > 0 then
            (summary.topAnomalies.getD 0 dummyAnomaly).score
          else 0
        affectedColumns := [t]
        explanation := "Found " ++ toString summary.count ++ " anomalies in \"" ++ t
          ++ "\" with " ++ summary.severity ++ " severity." } }
      textSummary := "Anomaly analysis for \"" ++ t ++ "\": " ++ toString summary.count
        ++ " anomalies detected (severity: " ++ summary.severity ++ ")."
      recommendedCharts := ["scatter", "line", "box"] }
  | Option.none =>
    let anomalies := detectAllAnomalies rows
    { query := "Find anomalies", intent := .anomalies
      insights := { anomalies := some anomalies }
      textSummary := anomalies.explanation
      recommendedCharts := ["scatter", "line", "heatmap"] }

/-- analyze.ts `handleForecastQuery`. -/
noncomputable def handleForecastQuery (rows : List DataRow)
    (targetColumn : Option String) : Except String InsightResponse := do
  match targetColumn with
  | some t => do
    let result ← forecast rows t
    pure { query := "Forecast " ++ t, intent := .forecast
           insights := { forecasts := some [result] }
           textSummary := result.interpretation
           recommendedCharts := ["line", "area"] }
  | Option.none => do
    let forecasts ← forecastAll rows
    pure { query := "Generate forecasts", intent := .forecast
           insights := { forecasts := some forecasts }
           textSummary := getForecastSummary forecasts
           recommendedCharts := ["line", "area"] }

/-- analyze.ts `handleTrendQuery`. -/
noncomputable def handleTrendQuery (rows : List DataRow)
    (targetColumn : Option String) : InsightResponse :=
  match targetColumn with
  | some t =>
    let trend := analyzeTrend rows t
    { query := "Trends in " ++ t, intent := .trends
      insights := { trends := some [trend] }
      textSummary := trend.explanation
      recommendedCharts := ["line", "area"] }
  | Option.none =>
    let trends := analyzeAllTrends rows
    { query := "Analyze trends", intent := .trends
      insights := { trends := some trends }
      textSummary := getTrendSummary trends
      recommendedCharts := ["line", "area", "heatmap"] }

/-- analyze.ts `handleCorrelationQuery`. -/
noncomputable def handleCorrelationQuery (rows : List DataRow)
    (targetColumn : Option String) : InsightResponse :=
  let correlations := analyzeCorrelations rows
  match targetColumn with
  | some t =>
    let related := findCorrelatedFeatures rows t
    { query := "Correlations with " ++ t, intent := .correlation
      insights := { correlations := some correlations }
      textSummary :=
        if related.length > 0 then
          "Top correlations with \"" ++ t ++ "\": "
            ++ String.intercalate ", " ((related.take 5).map (fun r =>
                 r.column ++ " (" ++ toFixedR r.correlation 2 ++ ")")) ++ "."
        else "No significant correlations found for \"" ++ t ++ "\"."
      recommendedCharts := ["scatter", "heatmap"] }
  | Option.none =>
    { query := "Explain correlations", intent := .correlation
      insights := { correlations := some correlations }
      textSummary := correlations.explanation
      recommendedCharts := ["heatmap", "scatter"] }

/-- analyze.ts `handleExplainQuery`. -/
noncomputable def handleExplainQuery (rows : List DataRow)
    (targetColumn : Option String) : Except String InsightResponse := do
  let profile := profileDataset rows
  match targetColumn with
  | some t =>
    match profile.columns.find? (fun c => jsToLower c.name == jsToLower t) with
    | Option.none =>
      pure { query := "Explain " ++ t, intent := .explain
             insights := { profile := some profile }
             textSummary := "Column \"" ++ t ++ "\" not found in dataset."
             recommendedCharts := [] }
    | some colProfile =>
      let p1 := "\"" ++ colProfile.name ++ "\" is a " ++ columnTypeStr colProfile.type
        ++ " column with " ++ toString colProfile.totalCount ++ " values ("
        ++ toString colProfile.nullCount ++ " null)."
      let parts :=
        if colProfile.type = .numeric then
          let trend := analyzeTrend rows colProfile.name
          let anomalySummary := getColumnAnomalySummary rows colProfile.name
          let related := findCorrelatedFeatures rows colProfile.name 3
          [p1,
           "Range: " ++ renderProfValTemplate colProfile.min ++ " to "
             ++ renderProfValTemplate colProfile.max ++ ", Mean: "
             ++ renderMeanFixed colProfile.mean ++ ", StdDev: "
             ++ renderStdFixed colProfile.stdDev ++ ".",
           "Trend: " ++ trendDirectionStr trend.direction ++ " ("
             ++ toFixed (trend.strength * 100) 0 ++ "% confidence).",
           "Anomalies: " ++ toString anomalySummary.count ++ " detected ("
             ++ anomalySummary.severity ++ " severity)."] ++
          (if related.length > 0 then
            ["Top correlations: " ++ String.intercalate ", " (related.map (fun r =>
               r.column ++ " (" ++ toFixedR r.correlation 2 ++ ")")) ++ "."]
           else [])
        else
          [p1,
           "Unique values: " ++ toString colProfile.uniqueCount ++ ". Top values: "
             ++ String.intercalate ", " ((colProfile.topValues.take 3).map (fun v =>
                  "\"" ++ keyValStr v.1 ++ "\" (" ++ toString v.2 ++ ")")) ++ "."]
      pure { query := "Explain " ++ t, intent := .explain
             insights := { profile := some profile }
             textSummary := String.intercalate " " parts
             recommendedCharts :=
               if colProfile.type = .numeric then ["line", "histogram", "scatter"]
               else ["bar", "pie"] }
  | Option.none => generateCompleteAnalysis rows

/-- The no-data short-circuit response of `analyze`. -/
def noDataResponse (query : String) : InsightResponse :=
  { query := query, intent := .summary, insights := {}
    textSummary := "No data provided for analysis. Please provide a valid dataset."
    recommendedCharts := [] }

/-- analyze.ts `analyze` (the async wrapper is synchronous inside): guard
`!dataset || dataset.length === 0`, then intent dispatch. The dataset
argument is `Option`-typed to model a null/undefined reference. -/
noncomputable def analyze (query : String) (dataset : Option (List DataRow)) :
    Except String InsightResponse :=
  match dataset with
  | Option.none => .ok (noDataResponse query)
  | some rows =>
    if rows.length = 0 then .ok (noDataResponse query)
    else
      let d := detectIntent query
      match d.intent with
      | .profile => .ok (handleProfileQuery rows)
      | .summary => .ok (handleSummaryQuery rows d.targetColumn)
      | .anomalies => .ok (handleAnomalyQuery rows d.targetColumn)
      | .forecast => handleForecastQuery rows d.targetColumn
      | .trends => .ok (handleTrendQuery rows d.targetColumn)
      | .correlation => .ok (handleCorrelationQuery rows d.targetColumn)
      | .explain => handleExplainQuery rows d.targetColumn

/-! ## General lemmas -/

/-- The standard deviation is nonnegative. -/
theorem standardDeviation_nonneg (values : List ℚ) : 0 ≤ standardDeviation values := by
  unfold standardDeviation
  split
  · exact le_refl 0
  · exact Real.sqrt_nonneg _

/-! ## Claims -/

/-- C1: every analyzer output is a deterministic pure function of the input
dataset and its explicit parameters. The entire engine embeds as pure
functions — the source contains no randomness, clocks, or global mutable
state — so re-running any analysis (the profiler, the complete analysis, any
individual analyzer, or the `analyze` facade) on an unchanged dataset yields
identical results. -/
theorem analysis_deterministic (q : String) (D : List DataRow) (c : String) :
    profileDataset D = profileDataset D ∧
    generateCompleteAnalysis D = generateCompleteAnalysis D ∧
    analyzeTrend D c = analyzeTrend D c ∧
    detectColumnAnomalies D c = detectColumnAnomalies D c ∧
    forecast D c 7 .auto = forecast D c 7 .auto ∧
    calculateCorrelationMatrix D = calculateCorrelationMatrix D ∧
    analyze q (some D) = analyze q (some D) :=
  ⟨rfl, rfl, rfl, rfl, rfl, rfl, rfl⟩

/-- C9: `analyze(query, [])` on the empty dataset short-circuits with a
response whose text summary states that no data was provided, whose insights
object is empty, and whose recommended-charts list is empty. -/
theorem analyze_empty_dataset_shortcircuit (q : String) :
    ∃ r, analyze q (some []) = .ok r ∧
      r.textSummary = "No data provided for analysis. Please provide a valid dataset." ∧
      r.insights = emptyInsights ∧
      r.recommendedCharts = [] :=
  ⟨noDataResponse q, rfl, rfl, rfl, rfl⟩

/-- Rows exercising every coercion class of C3: a numeric cell, a `null`
cell, an empty-string cell, a non-numeric string cell, and a row missing the
column entirely. -/
def rowsC3 : List DataRow :=
  [[("v", .num 1)], [("v", .null)], [("v", .str "")], [("v", .str "abc")], []]

/-- C3 counterexample: the numeric series of a column with cells
`[1, null, '', 'abc', <absent>]` is `[1, 0, 0]` — the `null` and
empty-string cells coerce to `0` and are retained (JS `Number(null) = 0`,
`Number('') = 0`), contradicting the claim that they are dropped; only the
NaN coercions (`'abc'` and the absent cell) are dropped. -/
theorem extractNumeric_keeps_null_and_empty :
    extractNumericValues rowsC3 "v" = [1, 0, 0] := by decide

/-- C3 (amended): the numeric series contains exactly the cells whose JS
`Number` coercion yields a finite number, in row order: coercion failures
(NaN/non-finite — absent/`undefined` cells and non-numeric strings) are
silently dropped rather than halting the computation, while `null` and
empty-string cells coerce to `0` and are retained as `0`; the documented
"≥ 10 numeric values" anomaly threshold is evaluated on this post-filter
series. -/
theorem numeric_series_coercion_policy (rows : List DataRow) (col : String) :
    extractNumericValues rows col = rows.filterMap (fun row => toNumber (rowGet row col)) ∧
    toNumber .null = some 0 ∧
    toNumber (.str "") = some 0 ∧
    toNumber .undefVal = Option.none ∧
    toNumber (.str "abc") = Option.none ∧
    ((extractNumericValues rows col).length < 10 → detectColumnAnomalies rows col = []) := by
  refine ⟨?_, rfl, rfl, rfl, by decide, ?_⟩
  · rw [extractNumericValues, List.filterMap_map]
    rfl
  · intro h
    rw [detectColumnAnomalies, if_pos h]

/-- Witness for C3 (amended) at the concrete rows `rowsC3`. -/
theorem numeric_series_coercion_policy_witness :
    extractNumericValues rowsC3 "v"
      = rowsC3.filterMap (fun row => toNumber (rowGet row "v")) ∧
    detectColumnAnomalies rowsC3 "v" = [] :=
  ⟨(numeric_series_coercion_policy rowsC3 "v").1,
   (numeric_series_coercion_policy rowsC3 "v").2.2.2.2.2 (by decide)⟩

/-- C4 counterexample: a null/undefined dataset reference passed to `analyze`
does not fail fast with a descriptive condition — the call succeeds with the
same graceful no-data response as an empty dataset. -/
theorem analyze_null_dataset_is_ok :
    analyze "describe the data" Option.none = .ok (noDataResponse "describe the data") ∧
    (analyze "describe the data" Option.none).isOk = true :=
  ⟨rfl, rfl⟩

/-- C4 (amended): the engine never signals failures deliberately. A
null/undefined dataset passed to `analyze` is handled gracefully with the
no-data response rather than a fail-fast condition, and `forecast` performs
no validation of `periods`: a non-positive `periods` value either raises an
accidental, undescriptive `TypeError` (reading `.value` of
`predictions[-1]`, when the series' last value is nonzero) or silently
returns a result with an empty prediction list (when the last value is
zero). -/
theorem engine_failure_surface (q : String) (rows : List DataRow) (col : String)
    (p : ℤ) (hp : p ≤ 0) (h5 : 5 ≤ (extractNumericValues rows col).length) :
    (∃ r, analyze q Option.none = .ok r ∧
      r.textSummary = "No data provided for analysis. Please provide a valid dataset.") ∧
    (((extractNumericValues rows col).getD ((extractNumericValues rows col).length - 1) 0 ≠ 0 →
      forecast rows col p .linear
        = .error "TypeError: Cannot read properties of undefined (reading 'value')") ∧
     ((extractNumericValues rows col).getD ((extractNumericValues rows col).length - 1) 0 = 0 →
      ∃ r, forecast rows col p .linear = .ok r ∧ r.predictions = [])) := by
  refine ⟨⟨noDataResponse q, rfl, rfl⟩, ?_, ?_⟩
  · intro hla
    rw [forecast]
    rw [if_neg (by omega)]
    simp only [linearForecast, Int.toNat_of_nonpos hp, List.range'_zero, List.map_nil,
      Bind.bind, Except.bind, Pure.pure, Except.pure, if_pos hla, jsIndex, jsProp]
    norm_num
  · intro hla
    rw [forecast]
    rw [if_neg (by omega)]
    simp only [linearForecast, Int.toNat_of_nonpos hp, List.range'_zero, List.map_nil,
      Bind.bind, Except.bind, Pure.pure, Except.pure, if_neg (not_ne_iff.mpr hla)]
    exact ⟨_, rfl, rfl⟩

/-- Witness for C4 (amended): five integer values with nonzero last value and
`periods = -3` produce the accidental `TypeError`; making the last value zero
instead silently yields empty predictions. -/
theorem engine_failure_surface_witness :
    (∃ r, analyze "hello" Option.none = .ok r ∧
      r.textSummary = "No data provided for analysis. Please provide a valid dataset.") ∧
    forecast [[("v", .num 1)], [("v", .num 2)], [("v", .num 3)], [("v", .num 4)],
        [("v", .num 5)]] "v" (-3) .linear
      = .error "TypeError: Cannot read properties of undefined (reading 'value')" := by
  refine ⟨(engine_failure_surface "hello"
      [[("v", .num 1)], [("v", .num 2)], [("v", .num 3)], [("v", .num 4)], [("v", .num 5)]]
      "v" (-3) (by norm_num) (by decide)).1,
    (engine_failure_surface "hello"
      [[("v", .num 1)], [("v", .num 2)], [("v", .num 3)], [("v", .num 4)], [("v", .num 5)]]
      "v" (-3) (by norm_num) (by decide)).2.1 (by decide)⟩

/-- Sorting preserves length. -/
theorem sortNum_length (l : List ℚ) : (sortNum l).length = l.length :=
  (List.mergeSort_perm l _).length_eq

/-- C8: for every non-empty numeric list, the 50th percentile (linear
interpolation between the bracketing order statistics) coincides with the
median, for both odd and even lengths. -/
theorem percentile_50_eq_median (S : List ℚ) (h : S ≠ []) :
    percentile S 50 = median S := by
  have hlen : S.length ≠ 0 := fun he => h (List.length_eq_zero.mp he)
  have hsl : (sortNum S).length = S.length := sortNum_length S
  rw [percentile, median, if_neg hlen, if_neg hlen]
  dsimp only
  rcases Nat.even_or_odd S.length with he | ho
  · obtain ⟨k, hk⟩ := he
    have hk1 : 1 ≤ k := by omega
    have hidx : (50 : ℚ) / 100 * (((sortNum S).length : ℚ) - 1) = (k : ℚ) - 1/2 := by
      rw [hsl, hk]; push_cast; ring
    rw [hidx]
    have hfl : ⌊(k : ℚ) - 1/2⌋ = (k : ℤ) - 1 := by
      refine Int.floor_eq_iff.mpr ⟨?_, ?_⟩ <;> push_cast <;> linarith
    have hcl : ⌈(k : ℚ) - 1/2⌉ = (k : ℤ) := by
      refine Int.ceil_eq_iff.mpr ⟨?_, ?_⟩ <;> push_cast <;> linarith
    rw [hfl, hcl, if_neg (by omega)]
    have ht1 : ((k : ℤ) - 1).toNat = k - 1 := by omega
    have ht2 : ((k : ℤ)).toNat = k := by omega
    have hmid : (sortNum S).length / 2 = k := by rw [hsl, hk]; omega
    have hmod : ¬((sortNum S).length % 2 ≠ 0) := by rw [hsl, hk]; omega
    rw [ht1, ht2, if_neg hmod, hmid]
    push_cast
    ring
  · obtain ⟨k, hk⟩ := ho
    have hidx : (50 : ℚ) / 100 * (((sortNum S).length : ℚ) - 1) = (k : ℚ) := by
      rw [hsl, hk]; push_cast; ring
    rw [hidx, Int.floor_natCast, Int.ceil_natCast, if_pos rfl]
    have hmid : (sortNum S).length / 2 = k := by rw [hsl, hk]; omega
    have hmod : (sortNum S).length % 2 ≠ 0 := by rw [hsl, hk]; omega
    rw [if_pos hmod, hmid]
    simp

/-- Witness for C8 at the concrete list `[3, 1, 2]`. -/
theorem percentile_50_eq_median_witness :
    percentile [3, 1, 2] 50 = median [3, 1, 2] :=
  percentile_50_eq_median [3, 1, 2] (by decide)

/-- Sum of a constant list. -/
theorem sum_const_list (l : List ℚ) (c : ℚ) (hall : ∀ v ∈ l, v = c) :
    l.sum = l.length * c := by
  induction l with
  | nil => simp
  | cons a t ih =>
    rw [List.sum_cons, ih (fun v hv => hall v (List.mem_cons_of_mem a hv)),
      hall a (List.mem_cons_self a t)]
    simp only [List.length_cons]
    push_cast
    ring

/-- Mean of a nonempty constant list. -/
theorem mean_const (l : List ℚ) (c : ℚ) (hne : l ≠ []) (hall : ∀ v ∈ l, v = c) :
    mean l = c := by
  have hlen : l.length ≠ 0 := fun he => hne (List.length_eq_zero.mp he)
  rw [mean, if_neg hlen, sum_const_list l c hall]
  rw [mul_comm]
  exact mul_div_cancel_right₀ c (Nat.cast_ne_zero.mpr hlen)

/-- Mean of an all-zero list (including the empty list). -/
theorem mean_all_zero (l : List ℚ) (hall : ∀ v ∈ l, v = 0) : mean l = 0 := by
  rcases eq_or_ne l [] with rfl | hne
  · rfl
  · exact mean_const l 0 hne hall

/-- Standard deviation of a constant list is zero. -/
theorem standardDeviation_const (l : List ℚ) (c : ℚ) (hall : ∀ v ∈ l, v = c) :
    standardDeviation l = 0 := by
  rw [standardDeviation]
  split
  · rfl
  · rename_i hlen
    have hne : l ≠ [] := by
      intro he
      rw [he] at hlen
      simp at hlen
    rw [mean_const l c hne hall]
    dsimp only
    have hz : mean (l.map fun v => (v - c) ^ 2) = 0 := by
      apply mean_all_zero
      intro v hv
      obtain ⟨w, hw, hvw⟩ := List.mem_map.mp hv
      rw [← hvw, hall w hw]
      ring
    rw [hz]
    simp

/-- Membership transfers across `sortNum`. -/
theorem sortNum_mem (l : List ℚ) (v : ℚ) : v ∈ sortNum l ↔ v ∈ l :=
  (List.mergeSort_perm l _).mem_iff

/-- `getD` on a list of equal elements, at an in-range index. -/
theorem getD_of_all_eq (l : List ℚ) (c : ℚ) (i : ℕ) (hi : i < l.length)
    (hall : ∀ v ∈ l, v = c) : l.getD i 0 = c := by
  rw [List.getD_eq_getElem l 0 hi]
  exact hall _ (List.getElem_mem hi)

/-- Percentile of a nonempty constant list, for `p ∈ [0, 100]`. -/
theorem percentile_const (l : List ℚ) (c : ℚ) (p : ℚ) (hne : l ≠ [])
    (hall : ∀ v ∈ l, v = c) (hp0 : 0 ≤ p) (hp100 : p ≤ 100) :
    percentile l p = c := by
  have hlen : l.length ≠ 0 := fun he => hne (List.length_eq_zero.mp he)
  have hsl : (sortNum l).length = l.length := sortNum_length l
  have hsall : ∀ v ∈ sortNum l, v = c := fun v hv => hall v ((sortNum_mem l v).mp hv)
  rw [percentile, if_neg hlen]
  dsimp only
  set idx : ℚ := p / 100 * (((sortNum l).length : ℚ) - 1) with hidx
  have hn1 : 1 ≤ l.length := Nat.one_le_iff_ne_zero.mpr hlen
  have hidx0 : 0 ≤ idx := by
    apply mul_nonneg (by positivity)
    rw [hsl]
    have : (1 : ℚ) ≤ (l.length : ℚ) := by exact_mod_cast hn1
    linarith
  have hidxn : idx ≤ ((sortNum l).length : ℚ) - 1 := by
    rw [hidx]
    have hb : ((sortNum l).length : ℚ) - 1 ≥ 0 := by
      rw [hsl]
      have : (1 : ℚ) ≤ (l.length : ℚ) := by exact_mod_cast hn1
      linarith
    nlinarith
  have hfl0 : 0 ≤ ⌊idx⌋ := Int.floor_nonneg.mpr hidx0
  have hfln : ⌊idx⌋ ≤ ((sortNum l).length : ℤ) - 1 := by
    have h1 : ⌊idx⌋ ≤ ⌊((sortNum l).length : ℚ) - 1⌋ := Int.floor_le_floor hidxn
    have h2 : (((sortNum l).length : ℚ) - 1) = ((((sortNum l).length : ℤ) - 1 : ℤ) : ℚ) := by
      push_cast; ring
    rwa [h2, Int.floor_intCast] at h1
  have hcl0 : 0 ≤ ⌈idx⌉ := le_trans hfl0 (Int.floor_le_ceil idx)
  have hcln : ⌈idx⌉ ≤ ((sortNum l).length : ℤ) - 1 := by
    apply Int.ceil_le.mpr
    rw [show ((((sortNum l).length : ℤ) - 1 : ℤ) : ℚ) = ((sortNum l).length : ℚ) - 1 by
      push_cast; ring]
    exact hidxn
  have hslpos : 0 < (sortNum l).length := by omega
  have hflt : ⌊idx⌋.toNat < (sortNum l).length := by omega
  have hclt : ⌈idx⌉.toNat < (sortNum l).length := by omega
  split
  · exact getD_of_all_eq _ c _ hflt hsall
  · rename_i hne2
    rw [getD_of_all_eq _ c _ hflt hsall, getD_of_all_eq _ c _ hclt hsall]
    have hord : ⌊idx⌋ ≤ ⌈idx⌉ := Int.floor_le_ceil idx
    have hle1 : ⌈idx⌉ ≤ ⌊idx⌋ + 1 := Int.ceil_le_floor_add_one idx
    have hstep : ⌈idx⌉ = ⌊idx⌋ + 1 := by omega
    rw [hstep]
    push_cast
    ring

/-- Quartiles of a nonempty constant list. -/
theorem quartiles_const (l : List ℚ) (c : ℚ) (hne : l ≠ []) (hall : ∀ v ∈ l, v = c) :
    quartiles l = ⟨c, c, c⟩ := by
  rw [quartiles, percentile_const l c 25 hne hall (by norm_num) (by norm_num),
    percentile_const l c 50 hne hall (by norm_num) (by norm_num),
    percentile_const l c 75 hne hall (by norm_num) (by norm_num)]

/-- The z-score detector finds nothing on a constant series. -/
theorem detectZScoreAnomalies_const (values : List ℚ) (col : String) (c : ℚ)
    (hall : ∀ v ∈ values, v = c) : detectZScoreAnomalies values col = [] := by
  rw [detectZScoreAnomalies]
  split
  · rfl
  · rw [standardDeviation_const values c hall]
    simp

/-- The IQR detector finds nothing on a constant series. -/
theorem detectIQRAnomalies_const (values : List ℚ) (col : String) (c : ℚ)
    (hall : ∀ v ∈ values, v = c) : detectIQRAnomalies values col = [] := by
  rw [detectIQRAnomalies]
  split
  · rfl
  · rename_i hlen
    have hne : values ≠ [] := by
      intro he
      rw [he] at hlen
      simp at hlen
    rw [quartiles_const values c hne hall]
    dsimp only
    apply List.filterMap_eq_nil_iff.mpr
    intro p hp
    obtain ⟨i, v⟩ := p
    obtain ⟨hi, hv⟩ := List.mem_enum hp
    have hvc : v = c := by
      rw [hv]
      exact hall _ (List.getElem_mem hi)
    rw [if_neg]
    rw [hvc]
    have h1 : c - 3/2 * (c - c) = c := by ring
    have h2 : c + 3/2 * (c - c) = c := by ring
    rw [h1, h2]
    simp

/-- The rolling-window detector finds nothing on a constant series. -/
theorem detectRollingAnomalies_const (values : List ℚ) (col : String) (c : ℚ)
    (hall : ∀ v ∈ values, v = c) : detectRollingAnomalies values col = [] := by
  rw [detectRollingAnomalies]
  split
  · rfl
  · apply List.filterMap_eq_nil_iff.mpr
    intro i _
    dsimp only
    have hwin : ∀ v ∈ (values.drop (i - 5)).take 5, v = c := fun v hv =>
      hall v (List.drop_subset _ _ (List.take_subset _ _ hv))
    rw [standardDeviation_const _ c hwin]
    simp

/-- C6: anomaly detection on a column whose coerced numeric series is
constant (all values equal, standard deviation 0) returns the empty list —
none of the three detectors (z-score, IQR, rolling window) flags any point,
for a series of any length. -/
theorem constant_series_no_anomalies (rows : List DataRow) (col : String) (c : ℚ)
    (hall : ∀ v ∈ extractNumericValues rows col, v = c) :
    detectColumnAnomalies rows col = [] := by
  rw [detectColumnAnomalies]
  split
  · rfl
  · rw [detectZScoreAnomalies_const _ col c hall, detectIQRAnomalies_const _ col c hall,
      detectRollingAnomalies_const _ col c hall]
    simp [dedupByRowIndex]

/-- Witness for C6: a 12-row constant column. -/
theorem constant_series_no_anomalies_witness :
    detectColumnAnomalies
      [[("v", .num 5)], [("v", .num 5)], [("v", .num 5)], [("v", .num 5)],
       [("v", .num 5)], [("v", .num 5)], [("v", .num 5)], [("v", .num 5)],
       [("v", .num 5)], [("v", .num 5)], [("v", .num 5)], [("v", .num 5)]] "v" = [] :=
  constant_series_no_anomalies _ "v" 5 (by decide)

/-- In-range JS indexing returns the element. -/
theorem jsIndex_eq_getElem {α : Type} (l : List α) (i : ℤ) (h0 : 0 ≤ i)
    (hl : i.toNat < l.length) : jsIndex l i = some l[i.toNat] := by
  rw [jsIndex, if_neg (not_lt.mpr h0), List.get?_eq_getElem?]
  exact List.getElem?_eq_getElem hl

/-- The linear forecaster emits exactly `periods` points, each with its value
inside the confidence interval. -/
theorem linearForecast_seven (values : List ℚ) :
    (linearForecast values 7).predictions.length = 7 ∧
    ∀ p ∈ (linearForecast values 7).predictions,
      p.confidence.lower ≤ ((p.value : ℚ) : ℝ) ∧
      ((p.value : ℚ) : ℝ) ≤ p.confidence.upper := by
  constructor
  · simp [linearForecast]
  · intro p hp
    rw [linearForecast] at hp
    dsimp only at hp
    obtain ⟨i, _, rfl⟩ := List.mem_map.mp hp
    dsimp only
    have hstd : (0:ℝ) ≤ standardDeviation values := standardDeviation_nonneg values
    have hsqrt : (0:ℝ) ≤ Real.sqrt (((1 + 1/(values.length : ℚ) : ℚ)) : ℝ) :=
      Real.sqrt_nonneg _
    have hmul : (0:ℝ) ≤ ((1 + (i : ℚ) * (1/10) : ℚ) : ℝ) := by
      have h : (0:ℚ) ≤ 1 + (i : ℚ) * (1/10) := by positivity
      exact_mod_cast h
    have hcm : (0:ℝ) ≤ ((196/100 : ℚ) : ℝ) := by norm_num
    have hprod : (0:ℝ) ≤ standardDeviation values * ((196/100 : ℚ) : ℝ)
        * Real.sqrt (((1 + 1/(values.length : ℚ) : ℚ)) : ℝ)
        * ((1 + (i : ℚ) * (1/10) : ℚ) : ℝ) :=
      mul_nonneg (mul_nonneg (mul_nonneg hstd hcm) hsqrt) hmul
    constructor <;> linarith

/-- The exponential forecaster at `periods = 7` succeeds with exactly 7
points, each with its value inside the confidence interval. -/
theorem exponentialForecast_seven (values : List ℚ) :
    ∃ core, exponentialForecast values 7 (3/10) = .ok core ∧
      core.predictions.length = 7 ∧
      ∀ p ∈ core.predictions,
        p.confidence.lower ≤ ((p.value : ℚ) : ℝ) ∧
        ((p.value : ℚ) : ℝ) ≤ p.confidence.upper := by
  rw [exponentialForecast]
  dsimp only
  simp only [Bind.bind, Except.bind, Pure.pure, Except.pure]
  have hb : ∀ (v : ℚ) (s : ℝ) (i : ℕ), 0 ≤ s →
      ((v : ℚ) : ℝ) - s * ((196/100 : ℚ) : ℝ) * Real.sqrt (((i : ℚ)) : ℝ) ≤ ((v : ℚ) : ℝ)
      ∧ ((v : ℚ) : ℝ) ≤ ((v : ℚ) : ℝ) + s * ((196/100 : ℚ) : ℝ)
          * Real.sqrt (((i : ℚ)) : ℝ) := by
    intro v s i hs
    have hc : (0:ℝ) ≤ ((196/100 : ℚ) : ℝ) := by norm_num
    have hq : (0:ℝ) ≤ Real.sqrt (((i : ℚ)) : ℝ) := Real.sqrt_nonneg _
    have := mul_nonneg (mul_nonneg hs hc) hq
    constructor <;> linarith
  split
  · rename_i h0
    rw [jsIndex_eq_getElem _ _ (by norm_num) (by simp)]
    refine ⟨_, rfl, by simp, ?_⟩
    intro p hp
    obtain ⟨i, _, rfl⟩ := List.mem_map.mp hp
    exact hb _ _ i (standardDeviation_nonneg values)
  · refine ⟨_, rfl, by simp, ?_⟩
    intro p hp
    obtain ⟨i, _, rfl⟩ := List.mem_map.mp hp
    exact hb _ _ i (standardDeviation_nonneg values)

/-- The rolling forecaster at `periods = 7` succeeds with exactly 7 points,
each with its value inside the confidence interval. -/
theorem rollingForecast_seven (values : List ℚ) :
    ∃ core, rollingForecast values 7 Option.none = .ok core ∧
      core.predictions.length = 7 ∧
      ∀ p ∈ core.predictions,
        p.confidence.lower ≤ ((p.value : ℚ) : ℝ) ∧
        ((p.value : ℚ) : ℝ) ≤ p.confidence.upper := by
  rw [rollingForecast]
  dsimp only
  simp only [Bind.bind, Except.bind, Pure.pure, Except.pure]
  rw [jsIndex_eq_getElem _ _ (by norm_num) (by simp), jsIndex_eq_getElem _ _ (by norm_num)
    (by simp)]
  dsimp only [jsProp]
  refine ⟨_, rfl, by simp, ?_⟩
  intro p hp
  obtain ⟨i, _, rfl⟩ := List.mem_map.mp hp
  dsimp only
  have hs := standardDeviation_nonneg values
  have hc : (0:ℝ) ≤ ((3/2 : ℚ) : ℝ) := by norm_num
  have hq : (0:ℝ) ≤ Real.sqrt ((((i : ℚ)
      / ((max 3 (values.length / 5) : ℕ) : ℚ) : ℚ)) : ℝ) := Real.sqrt_nonneg _
  have := mul_nonneg (mul_nonneg hs hc) hq
  constructor <;> linarith

/-- With at least 5 numeric values, `forecast` at 7 periods and automatic
method selection succeeds with exactly 7 prediction points, each inside its
confidence interval. -/
theorem forecast_auto_seven (rows : List DataRow) (col : String)
    (h5 : 5 ≤ (extractNumericValues rows col).length) :
    ∃ r, forecast rows col 7 .auto = .ok r ∧ r.predictions.length = 7 ∧
      ∀ p ∈ r.predictions, p.confidence.lower ≤ ((p.value : ℚ) : ℝ) ∧
        ((p.value : ℚ) : ℝ) ≤ p.confidence.upper := by
    rw [forecast]
    rw [if_neg (by omega)]
    dsimp only
    simp only [Bind.bind, Except.bind, Pure.pure, Except.pure]
    by_cases h1 : (linearRegression (extractNumericValues rows col)).r2 > 7/10
    · simp only [if_pos h1]
      have h7 := (linearForecast_seven (extractNumericValues rows col)).1
      split
      · rw [h7, jsIndex_eq_getElem _ _ (by norm_num) (by rw [h7]; norm_num)]
        exact ⟨_, rfl, (linearForecast_seven _).1, (linearForecast_seven _).2⟩
      · exact ⟨_, rfl, (linearForecast_seven _).1, (linearForecast_seven _).2⟩
    · simp only [if_neg h1]
      by_cases h2 : standardDeviation (extractNumericValues rows col)
          / (((if mean (extractNumericValues rows col) = 0 then 1
              else mean (extractNumericValues rows col)) : ℚ) : ℝ) > 3/10
      · simp only [if_pos h2]
        obtain ⟨core, hcore, h7, hbounds⟩ :=
          exponentialForecast_seven (extractNumericValues rows col)
        rw [hcore]
        dsimp only
        split
        · rw [h7, jsIndex_eq_getElem _ _ (by norm_num) (by rw [h7]; norm_num)]
          exact ⟨_, rfl, h7, hbounds⟩
        · exact ⟨_, rfl, h7, hbounds⟩
      · simp only [if_neg h2]
        obtain ⟨core, hcore, h7, hbounds⟩ :=
          rollingForecast_seven (extractNumericValues rows col)
        rw [hcore]
        dsimp only
        split
        · rw [h7, jsIndex_eq_getElem _ _ (by norm_num) (by rw [h7]; norm_num)]
          exact ⟨_, rfl, h7, hbounds⟩
        · exact ⟨_, rfl, h7, hbounds⟩

/-- C5: with at least 5 coercible numeric values, `forecast(D, col, 7)`
returns exactly 7 prediction points, each satisfying
`confidence.lower ≤ value ≤ confidence.upper`; with fewer than 5 it returns
an empty prediction list with the "insufficient data" trend and message. -/
theorem forecast_seven_periods (rows : List DataRow) (col : String) :
    (5 ≤ (extractNumericValues rows col).length →
      ∃ r, forecast rows col 7 .auto = .ok r ∧ r.predictions.length = 7 ∧
        ∀ p ∈ r.predictions, p.confidence.lower ≤ ((p.value : ℚ) : ℝ) ∧
          ((p.value : ℚ) : ℝ) ≤ p.confidence.upper) ∧
    ((extractNumericValues rows col).length < 5 →
      ∃ r, forecast rows col 7 .auto = .ok r ∧ r.predictions = [] ∧
        r.trend = "insufficient data") := by
  refine ⟨forecast_auto_seven rows col, ?_⟩
  intro h5
  rw [forecast]
  rw [if_pos h5]
  exact ⟨_, rfl, rfl, rfl⟩

/-- Witness for C5 at a 5-value column (sufficient data) and a 2-value column
(insufficient data). -/
theorem forecast_seven_periods_witness :
    (∃ r, forecast [[("v", .num 2)], [("v", .num 4)], [("v", .num 6)], [("v", .num 8)],
        [("v", .num 10)]] "v" 7 .auto = .ok r ∧ r.predictions.length = 7 ∧
      ∀ p ∈ r.predictions, p.confidence.lower ≤ ((p.value : ℚ) : ℝ) ∧
        ((p.value : ℚ) : ℝ) ≤ p.confidence.upper) ∧
    (∃ r, forecast [[("v", .num 2)], [("v", .num 4)]] "v" 7 .auto = .ok r ∧
      r.predictions = [] ∧ r.trend = "insufficient data") :=
  ⟨(forecast_seven_periods [[("v", .num 2)], [("v", .num 4)], [("v", .num 6)],
      [("v", .num 8)], [("v", .num 10)]] "v").1 (by decide),
   (forecast_seven_periods [[("v", .num 2)], [("v", .num 4)]] "v").2 (by decide)⟩

/-- Pearson correlation is symmetric in its two series. -/
theorem pearsonCorrelation_comm (x y : List ℚ) :
    pearsonCorrelation x y = pearsonCorrelation y x := by
  rw [pearsonCorrelation, pearsonCorrelation, min_comm y.length x.length]
  dsimp only
  by_cases h : min x.length y.length < 2
  · rw [if_pos h, if_pos h]
  · rw [if_neg h, if_neg h]
    set n := min x.length y.length with hn
    set xs := x.take n with hxs
    set ys := y.take n with hys
    have hnum : ((ys.zip xs).map (fun p => (p.1 - mean ys) * (p.2 - mean xs))).sum
        = ((xs.zip ys).map (fun p => (p.1 - mean xs) * (p.2 - mean ys))).sum := by
      rw [← List.zip_swap xs ys, List.map_map]
      congr 1
      apply List.map_congr_left
      intro p _
      cases p
      dsimp [Prod.swap]
      ring
    rw [hnum, mul_comm ((ys.map (fun v => (v - mean ys) ^ 2)).sum)
      ((xs.map (fun v => (v - mean xs) ^ 2)).sum)]

/-- The numeric columns that `calculateCorrelationMatrix` ranges over when no
explicit column list is passed. -/
def numericColumnsOf (rows : List DataRow) : List String :=
  (objKeys (rows.getD 0 [])).filter (fun col =>
    detectColumnType (rows.map (fun row => rowGet row col)) == ColumnType.numeric)

/-- The intended entry of the correlation matrix. -/
noncomputable def corrVal (rows : List DataRow) (a b : String) : ℝ :=
  if a = b then 1
  else pearsonCorrelation (extractNumericValues rows a) (extractNumericValues rows b)

/-- One fully-populated matrix row. -/
noncomputable def corrRow (rows : List DataRow) (cols : List String) (a : String) :
    String × List (String × ℝ) :=
  (a, cols.map (fun b => (b, corrVal rows a b)))

/-- `find?` over a keyed map commutes with the key search. -/
theorem find?_key_map {β : Type} (f : String → String × β) (hf : ∀ c, (f c).1 = c)
    (l : List String) (a : String) :
    (l.map f).find? (fun p => p.1 == a) = (l.find? (fun c => c == a)).map f := by
  induction l with
  | nil => rfl
  | cons c t ih =>
    cases hc : (c == a) with
    | false =>
      rw [List.map_cons, List.find?_cons_of_neg _ (by rw [hf c]; simp [hc]),
        List.find?_cons_of_neg _ (by simp [hc]), ih]
    | true =>
      rw [List.map_cons, List.find?_cons_of_pos _ (by rw [hf c]; simp [hc]),
        List.find?_cons_of_pos _ (by simp [hc])]
      rfl

/-- Searching for a key that is present returns that key. -/
theorem find?_beq_self (l : List String) (a : String) (ha : a ∈ l) :
    l.find? (fun c => c == a) = some a := by
  induction l with
  | nil => cases ha
  | cons c t ih =>
    by_cases hc : c = a
    · rw [List.find?_cons_of_pos _ (by simp [hc]), hc]
    · rw [List.find?_cons_of_neg _ (by simp [hc])]
      exact ih (by
        rcases List.mem_cons.mp ha with h | h
        · exact absurd h.symm hc
        · exact h)

/-- Searching for an absent key fails. -/
theorem find?_beq_none (l : List String) (a : String) (ha : a ∉ l) :
    l.find? (fun c => c == a) = Option.none := by
  apply List.find?_eq_none.mpr
  intro x hx
  simp only [beq_iff_eq]
  intro hxa
  exact ha (hxa ▸ hx)

/-- Reading an entry of a fully-populated matrix. -/
theorem matrixGet_map_corrRow (rows : List DataRow) (cols P : List String)
    (a b : String) (haP : a ∈ P) (hb : b ∈ cols) :
    matrixGet (P.map (corrRow rows cols)) a b = some (corrVal rows a b) := by
  rw [matrixGet, find?_key_map (corrRow rows cols) (fun c => rfl) P a,
    find?_beq_self P a haP]
  dsimp only [Option.map, corrRow]
  rw [find?_key_map (fun b2 => (b2, corrVal rows a b2)) (fun c => rfl) cols b,
    find?_beq_self cols b hb]
  rfl

/-- Reading an entry whose row is not yet populated. -/
theorem matrixGet_map_corrRow_none (rows : List DataRow) (cols P : List String)
    (a b : String) (haP : a ∉ P) :
    matrixGet (P.map (corrRow rows cols)) a b = Option.none := by
  rw [matrixGet, find?_key_map (corrRow rows cols) (fun c => rfl) P a,
    find?_beq_none P a haP]
  rfl

/-- Invariant of the matrix-building fold of `calculateCorrelationMatrix`:
after processing any prefix, the accumulated matrix consists of the fully
populated rows for that prefix (mirror lookups resolve by Pearson symmetry). -/
theorem corrMatrix_foldl (rows : List DataRow) (cols : List String) :
    ∀ (Q P : List String), P ++ Q = cols →
    Q.foldl (fun matrix col1 =>
        matrix ++ [(col1, cols.map (fun col2 =>
          (col2,
            if col1 = col2 then (1 : ℝ)
            else
              match matrixGet matrix col2 col1 with
              | some v => v
              | Option.none => pearsonCorrelation (extractNumericValues rows col1)
                  (extractNumericValues rows col2))))])
      (P.map (corrRow rows cols))
    = (P ++ Q).map (corrRow rows cols) := by
  intro Q
  induction Q with
  | nil =>
    intro P _
    simp
  | cons c Q' ih =>
    intro P hPQ
    rw [List.foldl_cons]
    have hstep : P.map (corrRow rows cols)
        ++ [(c, cols.map (fun col2 =>
             (col2,
               if c = col2 then (1 : ℝ)
               else
                 match matrixGet (P.map (corrRow rows cols)) col2 c with
                 | some v => v
                 | Option.none => pearsonCorrelation (extractNumericValues rows c)
                     (extractNumericValues rows col2))))]
        = (P ++ [c]).map (corrRow rows cols) := by
      rw [List.map_append, List.map_singleton]
      congr 1
      rw [corrRow]
      congr 1
      congr 1
      apply List.map_congr_left
      intro b _
      congr 1
      by_cases hcb : c = b
      · rw [if_pos hcb, corrVal, if_pos hcb]
      · rw [if_neg hcb, corrVal, if_neg hcb]
        by_cases hbP : b ∈ P
        · rw [matrixGet_map_corrRow rows cols P b c hbP
            (by rw [← hPQ]; exact List.mem_append.mpr (Or.inr (List.mem_cons_self c Q')))]
          rw [corrVal, if_neg (fun hbc => hcb hbc.symm)]
          exact (pearsonCorrelation_comm _ _).symm
        · rw [matrixGet_map_corrRow_none rows cols P b c hbP]
    rw [hstep, ih (P ++ [c]) (by rw [← hPQ]; simp)]
    simp

/-- `calculateCorrelationMatrix` equals the fully populated symmetric matrix
over the numeric columns. -/
theorem calculateCorrelationMatrix_eq (rows : List DataRow) :
    calculateCorrelationMatrix rows
      = (numericColumnsOf rows).map (corrRow rows (numericColumnsOf rows)) := by
  rw [calculateCorrelationMatrix]
  by_cases hr : rows.length = 0
  · rw [if_pos hr]
    have : rows = [] := List.length_eq_zero.mp hr
    subst this
    rfl
  · rw [if_neg hr]
    dsimp only
    exact corrMatrix_foldl rows (numericColumnsOf rows) (numericColumnsOf rows) [] rfl

/-- C7: the correlation matrix is symmetric over the numeric columns —
`matrix[a][b] = matrix[b][a]` for every pair of numeric columns, with 1 on
the diagonal. -/
theorem correlationMatrix_symmetric (rows : List DataRow) (a b : String)
    (ha : a ∈ numericColumnsOf rows) (hb : b ∈ numericColumnsOf rows) :
    matrixGet (calculateCorrelationMatrix rows) a b
      = matrixGet (calculateCorrelationMatrix rows) b a ∧
    matrixGet (calculateCorrelationMatrix rows) a a = some 1 := by
  rw [calculateCorrelationMatrix_eq]
  constructor
  · rw [matrixGet_map_corrRow rows _ _ a b ha hb,
      matrixGet_map_corrRow rows _ _ b a hb ha]
    by_cases hab : a = b
    · rw [corrVal, corrVal, if_pos hab, if_pos hab.symm]
    · rw [corrVal, corrVal, if_neg hab, if_neg (fun h => hab h.symm)]
      rw [pearsonCorrelation_comm]
  · rw [matrixGet_map_corrRow rows _ _ a a ha ha, corrVal, if_pos rfl]

/-- Concrete two-numeric-column dataset (numeric-parsing string cells). -/
def rowsC7 : List DataRow :=
  [[("x", .str "3"), ("y", .str "12")],
   [("x", .str "4"), ("y", .str "9")],
   [("x", .str "5"), ("y", .str "31")],
   [("x", .str "6"), ("y", .str "8")],
   [("x", .str "7"), ("y", .str "24")]]

/-- Type inference classifies the `x` column of `rowsC7` as numeric. -/
theorem detectColumnType_rowsC7_x :
    detectColumnType [JsValue.str "3", JsValue.str "4", JsValue.str "5",
      JsValue.str "6", JsValue.str "7"] = .numeric := by
  rw [detectColumnType]
  dsimp only
  rw [if_neg (by decide), if_neg (by decide), if_pos]
  rw [show (List.filter isPresentCell [JsValue.str "3", JsValue.str "4", JsValue.str "5",
    JsValue.str "6", JsValue.str "7"]) = [JsValue.str "3", JsValue.str "4", JsValue.str "5",
    JsValue.str "6", JsValue.str "7"] from by decide]
  simp +decide [List.filter_cons, List.take_succ_cons, List.take_zero]
  norm_num

/-- Type inference classifies the `y` column of `rowsC7` as numeric. -/
theorem detectColumnType_rowsC7_y :
    detectColumnType [JsValue.str "12", JsValue.str "9", JsValue.str "31",
      JsValue.str "8", JsValue.str "24"] = .numeric := by
  rw [detectColumnType]
  dsimp only
  rw [if_neg (by decide), if_neg (by decide), if_pos]
  rw [show (List.filter isPresentCell [JsValue.str "12", JsValue.str "9", JsValue.str "31",
    JsValue.str "8", JsValue.str "24"]) = [JsValue.str "12", JsValue.str "9",
    JsValue.str "31", JsValue.str "8", JsValue.str "24"] from by decide]
  simp +decide [List.filter_cons, List.take_succ_cons, List.take_zero]
  norm_num

/-- Both columns of `rowsC7` are numeric columns. -/
theorem rowsC7_numeric_mem :
    "x" ∈ numericColumnsOf rowsC7 ∧ "y" ∈ numericColumnsOf rowsC7 := by
  constructor
  · rw [numericColumnsOf]
    refine List.mem_filter.mpr ⟨by decide, ?_⟩
    show (detectColumnType (rowsC7.map (fun row => rowGet row "x"))
      == ColumnType.numeric) = true
    rw [show rowsC7.map (fun row => rowGet row "x") = [JsValue.str "3", JsValue.str "4",
      JsValue.str "5", JsValue.str "6", JsValue.str "7"] from rfl, detectColumnType_rowsC7_x]
    rfl
  · rw [numericColumnsOf]
    refine List.mem_filter.mpr ⟨by decide, ?_⟩
    show (detectColumnType (rowsC7.map (fun row => rowGet row "y"))
      == ColumnType.numeric) = true
    rw [show rowsC7.map (fun row => rowGet row "y") = [JsValue.str "12", JsValue.str "9",
      JsValue.str "31", JsValue.str "8", JsValue.str "24"] from rfl, detectColumnType_rowsC7_y]
    rfl

/-- Witness for C7 at the concrete dataset `rowsC7`. -/
theorem correlationMatrix_symmetric_witness :
    matrixGet (calculateCorrelationMatrix rowsC7) "x" "y"
      = matrixGet (calculateCorrelationMatrix rowsC7) "y" "x" ∧
    matrixGet (calculateCorrelationMatrix rowsC7) "x" "x" = some 1 :=
  correlationMatrix_symmetric rowsC7 "x" "y" rowsC7_numeric_mem.1 rowsC7_numeric_mem.2

/-- Every z-score anomaly indexes the numeric series and carries its value. -/
theorem detectZScoreAnomalies_mem (values : List ℚ) (col : String) (t : ℚ) (a : Anomaly)
    (ha : a ∈ detectZScoreAnomalies values col t) :
    a.rowIndex < values.length ∧ values.getD a.rowIndex 0 = a.value := by
  rw [detectZScoreAnomalies] at ha
  split at ha
  · cases ha
  · dsimp only at ha
    split at ha
    · cases ha
    · obtain ⟨p, hp, hfp⟩ := List.mem_filterMap.mp ha
      obtain ⟨i, v⟩ := p
      obtain ⟨hi, hv⟩ := List.mem_enum hp
      dsimp only at hfp
      split at hfp
      · obtain rfl := Option.some.inj hfp
        exact ⟨hi, by rw [List.getD_eq_getElem values 0 hi]; exact hv.symm⟩
      · cases hfp

/-- Every IQR anomaly indexes the numeric series and carries its value. -/
theorem detectIQRAnomalies_mem (values : List ℚ) (col : String) (m : ℚ) (a : Anomaly)
    (ha : a ∈ detectIQRAnomalies values col m) :
    a.rowIndex < values.length ∧ values.getD a.rowIndex 0 = a.value := by
  rw [detectIQRAnomalies] at ha
  split at ha
  · cases ha
  · obtain ⟨p, hp, hfp⟩ := List.mem_filterMap.mp ha
    obtain ⟨i, v⟩ := p
    obtain ⟨hi, hv⟩ := List.mem_enum hp
    dsimp only at hfp
    split at hfp
    · obtain rfl := Option.some.inj hfp
      exact ⟨hi, by rw [List.getD_eq_getElem values 0 hi]; exact hv.symm⟩
    · cases hfp

/-- Every rolling-window anomaly indexes the numeric series and carries its
value. -/
theorem detectRollingAnomalies_mem (values : List ℚ) (col : String) (w : ℕ) (t : ℚ)
    (a : Anomaly) (ha : a ∈ detectRollingAnomalies values col w t) :
    a.rowIndex < values.length ∧ values.getD a.rowIndex 0 = a.value := by
  rw [detectRollingAnomalies] at ha
  split at ha
  · cases ha
  · obtain ⟨i, hi, hfp⟩ := List.mem_filterMap.mp ha
    have hilen : i < values.length := List.mem_range.mp (List.drop_subset _ _ hi)
    dsimp only at hfp
    split at hfp
    · cases hfp
    · split at hfp
      · obtain rfl := Option.some.inj hfp
        exact ⟨hilen, rfl⟩
      · cases hfp

/-- The merge `Map` only rearranges anomalies: any property of all inputs
holds for all outputs. -/
theorem dedupByRowIndex_forall (Q : Anomaly → Prop) (l : List Anomaly)
    (hl : ∀ x ∈ l, Q x) : ∀ x ∈ dedupByRowIndex l, Q x := by
  have key : ∀ (t : List Anomaly) (acc : List (ℕ × Anomaly)),
      (∀ p ∈ acc, Q p.2) → (∀ x ∈ t, Q x) →
      ∀ p ∈ t.foldl (fun (acc : List (ℕ × Anomaly)) a =>
        match acc.find? (fun p => p.1 == a.rowIndex) with
        | some p =>
          if p.2.score < a.score then
            acc.map (fun q => if q.1 == a.rowIndex then (q.1, a) else q)
          else acc
        | Option.none => acc ++ [(a.rowIndex, a)]) acc, Q p.2 := by
    intro t
    induction t with
    | nil =>
      intro acc hacc _ p hp
      exact hacc p hp
    | cons b t' ih =>
      intro acc hacc ht p hp
      rw [List.foldl_cons] at hp
      refine ih _ ?_ (fun x hx => ht x (List.mem_cons_of_mem b hx)) p hp
      intro q hq
      split at hq
      · split at hq
        · obtain ⟨r, hr, hrq⟩ := List.mem_map.mp hq
          by_cases hb : r.1 == b.rowIndex
          · rw [if_pos hb] at hrq
            rw [← hrq]
            exact ht b (List.mem_cons_self b t')
          · rw [if_neg hb] at hrq
            rw [← hrq]
            exact hacc r hr
        · exact hacc q hq
      · rcases List.mem_append.mp hq with h | h
        · exact hacc q h
        · rw [List.mem_singleton.mp h]
          exact ht b (List.mem_cons_self b t')
  intro x hx
  rw [dedupByRowIndex] at hx
  obtain ⟨p, hp, hpx⟩ := List.mem_map.mp hx
  rw [← hpx]
  exact key l [] (by intro p hp; cases hp) hl p hp

/-- C10: every anomaly returned by `detectColumnAnomalies` satisfies
`rowIndex < length of the coerced numeric series` and its `value` is the
series element at `rowIndex` — i.e. `rowIndex` addresses the filtered numeric
series (not the original dataset rows, from which NaN-coercing cells have
been removed). -/
theorem anomaly_rowIndex_in_series (rows : List DataRow) (col : String) (a : Anomaly)
    (ha : a ∈ detectColumnAnomalies rows col) :
    a.rowIndex < (extractNumericValues rows col).length ∧
    (extractNumericValues rows col).getD a.rowIndex 0 = a.value := by
  rw [detectColumnAnomalies] at ha
  split at ha
  · cases ha
  · dsimp only at ha
    have ha2 := (List.mergeSort_perm _ _).mem_iff.mp ha
    refine dedupByRowIndex_forall
      (fun x => x.rowIndex < (extractNumericValues rows col).length ∧
        (extractNumericValues rows col).getD x.rowIndex 0 = x.value) _ ?_ a ha2
    intro x hx
    rcases List.mem_append.mp hx with h | h
    · rcases List.mem_append.mp h with h2 | h2
      · exact detectZScoreAnomalies_mem _ col 3 x h2
      · exact detectIQRAnomalies_mem _ col (3/2) x h2
    · exact detectRollingAnomalies_mem _ col 5 2 x h

/-- Coerced numeric series of the C10 witness dataset: nine zeros and a 10. -/
def valsC10 : List ℚ := [0, 0, 0, 0, 0, 0, 0, 0, 0, 10]

/-- Mean of the witness series. -/
theorem meanC10 : mean valsC10 = 1 := by
  rw [mean, if_neg (by decide)]
  norm_num [valsC10]

/-- Standard deviation of the witness series (`sqrt 9`). -/
theorem stdC10 : standardDeviation valsC10 = 3 := by
  rw [standardDeviation, if_neg (by decide)]
  dsimp only
  rw [meanC10]
  have hmap : valsC10.map (fun v => (v - 1) ^ 2) = [1, 1, 1, 1, 1, 1, 1, 1, 1, 81] := by
    norm_num [valsC10]
  rw [hmap]
  have hm2 : mean [1, 1, 1, 1, 1, 1, 1, 1, 1, (81:ℚ)] = 9 := by
    rw [mean, if_neg (by norm_num)]
    norm_num
  rw [hm2]
  rw [show (((9:ℚ)):ℝ) = 3 ^ 2 by push_cast; norm_num]
  rw [Real.sqrt_sq (by norm_num)]

/-- The z-score detector flags nothing on the witness series (all |z| ≤ 3). -/
theorem zC10 : detectZScoreAnomalies valsC10 "v" 3 = [] := by
  rw [detectZScoreAnomalies, if_neg (by decide)]
  dsimp only
  rw [meanC10, stdC10, if_neg (by norm_num)]
  apply List.filterMap_eq_nil_iff.mpr
  intro p hp
  rw [show valsC10.enum = [(0, (0:ℚ)), (1, 0), (2, 0), (3, 0), (4, 0), (5, 0), (6, 0),
    (7, 0), (8, 0), (9, 10)] from rfl] at hp
  dsimp only
  rw [if_neg]
  fin_cases hp <;>
    · rw [zScore, if_neg (by norm_num)]
      push_cast
      rw [abs_div]
      norm_num


/-- The witness series is already sorted. -/
theorem sortC10 : sortNum valsC10 = valsC10 := by
  apply List.mergeSort_eq_self
  decide

/-- First quartile of the witness series. -/
theorem p25C10 : percentile valsC10 25 = 0 := by
  rw [percentile, if_neg (by decide)]
  dsimp only
  rw [sortC10]
  rw [show (25:ℚ) / 100 * ((valsC10.length : ℚ) - 1) = 9/4 by norm_num [valsC10]]
  rw [show ⌊(9/4 : ℚ)⌋ = 2 by norm_num [Int.floor_eq_iff]]
  rw [show ⌈(9/4 : ℚ)⌉ = 3 by norm_num [Int.ceil_eq_iff]]
  rw [if_neg (by norm_num)]
  rw [show valsC10.getD (Int.toNat 2) 0 = 0 from rfl,
    show valsC10.getD (Int.toNat 3) 0 = 0 from rfl]
  norm_num

/-- Median of the witness series. -/
theorem p50C10 : percentile valsC10 50 = 0 := by
  rw [percentile, if_neg (by decide)]
  dsimp only
  rw [sortC10]
  rw [show (50:ℚ) / 100 * ((valsC10.length : ℚ) - 1) = 9/2 by norm_num [valsC10]]
  rw [show ⌊(9/2 : ℚ)⌋ = 4 by norm_num [Int.floor_eq_iff]]
  rw [show ⌈(9/2 : ℚ)⌉ = 5 by norm_num [Int.ceil_eq_iff]]
  rw [if_neg (by norm_num)]
  rw [show valsC10.getD (Int.toNat 4) 0 = 0 from rfl,
    show valsC10.getD (Int.toNat 5) 0 = 0 from rfl]
  norm_num

/-- Third quartile of the witness series. -/
theorem p75C10 : percentile valsC10 75 = 0 := by
  rw [percentile, if_neg (by decide)]
  dsimp only
  rw [sortC10]
  rw [show (75:ℚ) / 100 * ((valsC10.length : ℚ) - 1) = 27/4 by norm_num [valsC10]]
  rw [show ⌊(27/4 : ℚ)⌋ = 6 by norm_num [Int.floor_eq_iff]]
  rw [show ⌈(27/4 : ℚ)⌉ = 7 by norm_num [Int.ceil_eq_iff]]
  rw [if_neg (by norm_num)]
  rw [show valsC10.getD (Int.toNat 6) 0 = 0 from rfl,
    show valsC10.getD (Int.toNat 7) 0 = 0 from rfl]
  norm_num

/-- The single anomaly the IQR detector flags on the witness series. -/
def aC10 : Anomaly :=
  { rowIndex := 9, column := "v", value := 10, expectedRange := ⟨0, 0⟩
    score := 1, type := .iqr }

/-- The IQR detector flags exactly the last point of the witness series. -/
theorem iqrC10 : detectIQRAnomalies valsC10 "v" (3/2) = [aC10] := by
  rw [detectIQRAnomalies, if_neg (by decide)]
  dsimp only
  rw [quartiles, p25C10, p50C10, p75C10]
  dsimp only
  rw [show valsC10.enum = [(0, (0:ℚ)), (1, 0), (2, 0), (3, 0), (4, 0), (5, 0), (6, 0),
    (7, 0), (8, 0), (9, 10)] from rfl]
  simp only [List.filterMap_cons]
  norm_num [aC10]


/-- The rolling detector flags nothing on the witness series (all-zero windows). -/
theorem rollC10 : detectRollingAnomalies valsC10 "v" 5 2 = [] := by
  rw [detectRollingAnomalies, if_neg (by decide)]
  apply List.filterMap_eq_nil_iff.mpr
  intro i hi
  dsimp only
  rw [show (List.range valsC10.length).drop 5 = [5, 6, 7, 8, 9] from rfl] at hi
  have hzero : ∀ j ∈ ([5, 6, 7, 8, 9] : List ℕ),
      (valsC10.drop (j - 5)).take 5 = [0, 0, 0, 0, 0] := by decide
  rw [hzero i hi]
  rw [standardDeviation_const [0, 0, 0, 0, 0] 0 (by decide)]
  simp

/-- The C10 witness dataset. -/
def rowsC10 : List DataRow :=
  [[("v", .num 0)], [("v", .num 0)], [("v", .num 0)], [("v", .num 0)], [("v", .num 0)],
   [("v", .num 0)], [("v", .num 0)], [("v", .num 0)], [("v", .num 0)], [("v", .num 10)]]

/-- Full anomaly detection on the witness dataset yields exactly `aC10`. -/
theorem detectC10 : detectColumnAnomalies rowsC10 "v" = [aC10] := by
  rw [detectColumnAnomalies]
  rw [show extractNumericValues rowsC10 "v" = valsC10 from rfl]
  rw [if_neg (by decide)]
  dsimp only
  rw [zC10, rollC10, iqrC10, List.nil_append, List.append_nil]
  rw [show dedupByRowIndex [aC10] = [aC10] from rfl]
  exact List.mergeSort_singleton _

/-- Witness for C10: the flagged anomaly of `rowsC10` indexes the numeric
series and carries its value. -/
theorem anomaly_rowIndex_in_series_witness :
    aC10 ∈ detectColumnAnomalies rowsC10 "v" ∧
    aC10.rowIndex < (extractNumericValues rowsC10 "v").length ∧
    (extractNumericValues rowsC10 "v").getD aC10.rowIndex 0 = aC10.value := by
  have hmem : aC10 ∈ detectColumnAnomalies rowsC10 "v" := by
    rw [detectC10]
    exact List.mem_singleton.mpr rfl
  exact ⟨hmem, (anomaly_rowIndex_in_series rowsC10 "v" aC10 hmem).1,
    (anomaly_rowIndex_in_series rowsC10 "v" aC10 hmem).2⟩


/-- Dataset for C2: five rows with two perfectly linear numeric columns,
`revenue` and `cost`, so both columns have at least five numeric values. -/
def rowsC2 : List DataRow :=
  [[("revenue", .num 1000), ("cost", .num 10)],
   [("revenue", .num 1100), ("cost", .num 11)],
   [("revenue", .num 1200), ("cost", .num 12)],
   [("revenue", .num 1300), ("cost", .num 13)],
   [("revenue", .num 1400), ("cost", .num 14)]]

/-- C2 counterexample: `detectIntent "forecast revenue"` does not bind the
target column — no alternative of the column-extraction regex matches a bare
word following "forecast" — so on a dataset that does have a `revenue`
column, `analyze "forecast revenue"` runs the all-columns branch of the
forecast handler ("Generate forecasts", forecasting both columns), not a
single-column forecast of `revenue`. -/
theorem forecast_revenue_ignores_column :
    (detectIntent "forecast revenue").targetColumn = Option.none ∧
    ∃ r, analyze "forecast revenue" (some rowsC2) = .ok r ∧
      r.query = "Generate forecasts" ∧
      (r.insights.forecasts.getD []).length = 2 := by
  have hint : detectIntent "forecast revenue" = ⟨.forecast, Option.none⟩ := by decide
  refine ⟨by rw [hint], ?_⟩
  obtain ⟨f1, hf1, -, -⟩ := forecast_auto_seven rowsC2 "revenue" (by decide)
  obtain ⟨f2, hf2, -, -⟩ := forecast_auto_seven rowsC2 "cost" (by decide)
  have hcols : ((objKeys (rowsC2.getD 0 [])).filter (fun column =>
      decide ((extractNumericValues rowsC2 column).length ≥ 5)))
      = ["revenue", "cost"] := by decide
  have hall : forecastAll rowsC2 7 = .ok [f1, f2] := by
    rw [forecastAll]
    rw [if_neg (by decide)]
    dsimp only
    rw [hcols]
    simp only [List.mapM_cons, List.mapM_nil, hf1, hf2, Bind.bind, Except.bind,
      Pure.pure, Except.pure]
  have hh : analyze "forecast revenue" (some rowsC2) = handleForecastQuery rowsC2 Option.none := by
    rw [analyze]
    rw [if_neg (by decide)]
    rw [hint]
  rw [hh, handleForecastQuery]
  simp only [Bind.bind, Except.bind, Pure.pure, Except.pure, hall]
  exact ⟨_, rfl, rfl, rfl⟩

/-- C2 (amended): on every non-empty dataset, `analyze "show me anomalies"`
dispatches to the anomalies handler (response intent `anomalies`), and
`analyze "forecast revenue"` dispatches to the forecast handler — but with no
target column bound (`detectIntent` leaves `targetColumn` undefined for this
phrasing), so the handler forecasts all eligible columns rather than the
single column `revenue`. -/
theorem query_intent_routing (D : List DataRow) (h : D ≠ []) :
    (∃ r, analyze "show me anomalies" (some D) = .ok r ∧ r.intent = .anomalies) ∧
    detectIntent "forecast revenue" = ⟨.forecast, Option.none⟩ ∧
    analyze "forecast revenue" (some D) = handleForecastQuery D Option.none := by
  have hlen : ¬ D.length = 0 := by
    simpa [List.length_eq_zero] using h
  have hint1 : detectIntent "show me anomalies" = ⟨.anomalies, Option.none⟩ := by decide
  have hint2 : detectIntent "forecast revenue" = ⟨.forecast, Option.none⟩ := by decide
  refine ⟨?_, hint2, ?_⟩
  · rw [analyze]
    rw [if_neg hlen]
    rw [hint1]
    exact ⟨_, rfl, rfl⟩
  · rw [analyze]
    rw [if_neg hlen]
    rw [hint2]

/-- Witness for C2 (amended) at the concrete dataset `rowsC2`. -/
theorem query_intent_routing_witness :
    (∃ r, analyze "show me anomalies" (some rowsC2) = .ok r ∧ r.intent = .anomalies) ∧
    detectIntent "forecast revenue" = ⟨.forecast, Option.none⟩ ∧
    analyze "forecast revenue" (some rowsC2) = handleForecastQuery rowsC2 Option.none :=
  query_intent_routing rowsC2 (by decide)

end Engine
